import Mathlib

/-!
MT8163 SCPSYS power-domain sequencing: a shallow embedding of
`drivers/soc/mediatek/mtk-scpsys-mt8163.c`.

The driver talks to its surroundings through a handful of kernel calls
(`readl`, `writel`, `clk_prepare_enable`, `clk_disable_unprepare`, `jiffies`,
`cpu_relax`, the infracfg bus-protection helpers, the power-state callback and
`dev_err`).  Every such call is recorded, in program order, as an `Event` of a
trace; the values that the surroundings hand back (register contents, the tick
counter, return codes) are supplied by an `Env`, indexed by how many calls of
that kind were made before.  Since the driver is deterministic, quantifying
over every `Env` covers every behaviour of the hardware and of the clock and
infracfg frameworks.

32-bit registers are natural numbers below `2 ^ 32`; `unsigned long` tick
values are natural numbers below `2 ^ BITS_PER_LONG` with explicit wrap-around.
The two polling loops may spin for ever when the tick counter stands still, so
they take a bound on the number of iterations and report when it is used up.
-/

namespace Scpsys

/-! ## Constants -/

/-- The macro `BIT(n)` of `linux/bits.h`. -/
def BIT (n : Nat) : Nat := 2 ^ n

/-- The macro `GENMASK(h, l)` of `linux/bits.h`: the bits `l..h`, both included. -/
def GENMASK (h l : Nat) : Nat := 2 ^ (h + 1) - 2 ^ l

def SPM_VDE_PWR_CON : Nat := 0x0210
def SPM_MFG_PWR_CON : Nat := 0x0214
def SPM_VEN_PWR_CON : Nat := 0x0230
def SPM_ISP_PWR_CON : Nat := 0x0238
def SPM_DIS_PWR_CON : Nat := 0x023c
def SPM_CONN_PWR_CON : Nat := 0x0280
def SPM_AUDIO_PWR_CON : Nat := 0x029c
def SPM_MFG_ASYNC_PWR_CON : Nat := 0x02c4
def SPM_PWR_STATUS : Nat := 0x060c
def SPM_PWR_STATUS_2ND : Nat := 0x0610

def PWR_RST_B_BIT : Nat := BIT 0
def PWR_ISO_BIT : Nat := BIT 1
def PWR_ON_BIT : Nat := BIT 2
def PWR_ON_2ND_BIT : Nat := BIT 3
def PWR_CLK_DIS_BIT : Nat := BIT 4

def PWR_STATUS_CONN : Nat := BIT 1
def PWR_STATUS_DISP : Nat := BIT 3
def PWR_STATUS_MFG : Nat := BIT 4
def PWR_STATUS_ISP : Nat := BIT 5
def PWR_STATUS_VDEC : Nat := BIT 7
def PWR_STATUS_VENC : Nat := BIT 21
def PWR_STATUS_MFG_ASYNC : Nat := BIT 23
def PWR_STATUS_AUDIO : Nat := BIT 24

/-- The type `enum clk_id`; `MT8163_CLK_NONE` is the sentinel that ends a clock list. -/
inductive clk_id where
  | MT8163_CLK_NONE
  | MT8163_CLK_MM
  | MT8163_CLK_MFG
  deriving DecidableEq

def MAX_CLKS : Nat := 2

/-- The error numbers `ETIMEDOUT` and `EINVAL` of `asm-generic/errno.h`. -/
def ETIMEDOUT : Int := 110

def EINVAL : Int := 22

/-- The 32-bit complement `~m` of a `u32`. -/
def not32 (m : Nat) : Nat := 0xFFFFFFFF ^^^ m

/-! ## Descriptor table -/

/-- The type `struct scp_domain_data`. -/
structure scp_domain_data where
  name : String
  sta_mask : Nat
  ctl_offs : Nat
  sram_pdn_bits : Nat
  sram_pdn_ack_bits : Nat
  bus_prot_mask : Nat
  clk_id : Fin MAX_CLKS → clk_id
  active_wakeup : Bool

/-- The indices `MT8163_POWER_DOMAIN_*` of `dt-bindings/power/mt8163-power.h`. -/
inductive power_domain where
  | MT8163_POWER_DOMAIN_VDEC
  | MT8163_POWER_DOMAIN_VENC
  | MT8163_POWER_DOMAIN_ISP
  | MT8163_POWER_DOMAIN_DISP
  | MT8163_POWER_DOMAIN_AUDIO
  | MT8163_POWER_DOMAIN_MFG_ASYNC
  | MT8163_POWER_DOMAIN_MFG
  | MT8163_POWER_DOMAIN_CONN
  deriving DecidableEq

/-- The `MT8163_TOP_AXI_PROT_EN_*` masks of `linux/soc/mediatek/infracfg.h`,
which the descriptor table refers to; the header is not part of the driver
source, so the table takes them as a parameter. -/
structure infracfg_masks where
  MT8163_TOP_AXI_PROT_EN_MM_M0 : Nat
  MT8163_TOP_AXI_PROT_EN_MFG_M0 : Nat
  MT8163_TOP_AXI_PROT_EN_MFG_SNOOP_OUT : Nat
  MT8163_TOP_AXI_PROT_EN_CCI_M2 : Nat
  MT8163_TOP_AXI_PROT_EN_CONN2EMI : Nat
  MT8163_TOP_AXI_PROT_EN_CONN2PERI : Nat

/-- The table `scp_domain_data[]`.  Fields that an initializer leaves out are
zero, as in C. -/
def scp_domain_data_table (ic : infracfg_masks) : power_domain → scp_domain_data
  | power_domain.MT8163_POWER_DOMAIN_VDEC =>
    { name := "vdec", sta_mask := PWR_STATUS_VDEC, ctl_offs := SPM_VDE_PWR_CON,
      sram_pdn_bits := GENMASK 11 8, sram_pdn_ack_bits := GENMASK 12 12,
      clk_id := ![clk_id.MT8163_CLK_MM, clk_id.MT8163_CLK_NONE], active_wakeup := true,
      bus_prot_mask := 0 }
  | power_domain.MT8163_POWER_DOMAIN_VENC =>
    { name := "venc", sta_mask := PWR_STATUS_VENC, ctl_offs := SPM_VEN_PWR_CON,
      sram_pdn_bits := GENMASK 11 8, sram_pdn_ack_bits := GENMASK 15 12,
      clk_id := ![clk_id.MT8163_CLK_MM, clk_id.MT8163_CLK_NONE], active_wakeup := true,
      bus_prot_mask := 0 }
  | power_domain.MT8163_POWER_DOMAIN_ISP =>
    { name := "isp", sta_mask := PWR_STATUS_ISP, ctl_offs := SPM_ISP_PWR_CON,
      sram_pdn_bits := GENMASK 11 8, sram_pdn_ack_bits := GENMASK 13 12,
      clk_id := ![clk_id.MT8163_CLK_MM, clk_id.MT8163_CLK_NONE], active_wakeup := true,
      bus_prot_mask := 0 }
  | power_domain.MT8163_POWER_DOMAIN_DISP =>
    { name := "mm", sta_mask := PWR_STATUS_DISP, ctl_offs := SPM_DIS_PWR_CON,
      sram_pdn_bits := GENMASK 11 8, sram_pdn_ack_bits := GENMASK 12 12,
      clk_id := ![clk_id.MT8163_CLK_MM, clk_id.MT8163_CLK_NONE], active_wakeup := true,
      bus_prot_mask := ic.MT8163_TOP_AXI_PROT_EN_MM_M0 }
  | power_domain.MT8163_POWER_DOMAIN_AUDIO =>
    { name := "audio", sta_mask := PWR_STATUS_AUDIO, ctl_offs := SPM_AUDIO_PWR_CON,
      sram_pdn_bits := GENMASK 11 8, sram_pdn_ack_bits := GENMASK 15 12,
      clk_id := ![clk_id.MT8163_CLK_NONE, clk_id.MT8163_CLK_NONE], active_wakeup := true,
      bus_prot_mask := 0 }
  | power_domain.MT8163_POWER_DOMAIN_MFG_ASYNC =>
    { name := "mfg_async", sta_mask := PWR_STATUS_MFG_ASYNC,
      ctl_offs := SPM_MFG_ASYNC_PWR_CON,
      sram_pdn_bits := GENMASK 11 8, sram_pdn_ack_bits := 0,
      clk_id := ![clk_id.MT8163_CLK_NONE, clk_id.MT8163_CLK_NONE], active_wakeup := false,
      bus_prot_mask := ic.MT8163_TOP_AXI_PROT_EN_MFG_M0 |||
        ic.MT8163_TOP_AXI_PROT_EN_MFG_SNOOP_OUT }
  | power_domain.MT8163_POWER_DOMAIN_MFG =>
    { name := "mfg", sta_mask := PWR_STATUS_MFG, ctl_offs := SPM_MFG_PWR_CON,
      sram_pdn_bits := GENMASK 13 8, sram_pdn_ack_bits := GENMASK 16 16,
      clk_id := ![clk_id.MT8163_CLK_MFG, clk_id.MT8163_CLK_NONE], active_wakeup := false,
      bus_prot_mask := 0 }
  | power_domain.MT8163_POWER_DOMAIN_CONN =>
    { name := "conn", sta_mask := PWR_STATUS_CONN, ctl_offs := SPM_CONN_PWR_CON,
      sram_pdn_bits := GENMASK 8 8, sram_pdn_ack_bits := 0,
      clk_id := ![clk_id.MT8163_CLK_NONE, clk_id.MT8163_CLK_NONE], active_wakeup := true,
      bus_prot_mask := ic.MT8163_TOP_AXI_PROT_EN_CCI_M2 |||
        ic.MT8163_TOP_AXI_PROT_EN_CONN2EMI |||
        ic.MT8163_TOP_AXI_PROT_EN_CONN2PERI }

/-! ## Run-time domain, surroundings and traces -/

/-- The type `struct scp_domain`.  A clock handle is named by the `clk_id` it
was looked up under, `none` is the `NULL` pointer; `ctl_addr` is kept as the
offset from `scp->base`; `power_state_cb` records whether the callback pointer
is set. -/
structure scp_domain where
  clk : Fin MAX_CLKS → Option clk_id
  sta_mask : Nat
  ctl_addr : Nat
  sram_pdn_bits : Nat
  sram_pdn_ack_bits : Nat
  bus_prot_mask : Nat
  active_wakeup : Bool
  power_state_cb : Bool

/-- One call from the driver into the kernel or the hardware. -/
inductive Event where
  | clk_prepare_enable (clk : clk_id) (ret : Int)
  | clk_disable_unprepare (clk : clk_id)
  | readl (offs : Nat) (val : Nat)
  | writel (val : Nat) (offs : Nat)
  | jiffies (val : Nat)
  | cpu_relax
  | clear_bus_protection (mask : Nat) (ret : Int)
  | set_bus_protection (mask : Nat) (ret : Int)
  | power_state_cb (state : Nat)
  | dev_err
  deriving DecidableEq

/-- What the surroundings answer.  `readl_ctl k` is the content found by the
`k`-th read of the control register of the domain, `readl_status k` and
`readl_status_2nd k` the contents found by the `k`-th status check,
`jiffies k` the `k`-th reading of the tick counter, `clk_prepare_enable k` and
`bus_protection k` the return codes of the `k`-th call.  `HZ` and
`BITS_PER_LONG` are the build constants of the kernel. -/
structure Env where
  HZ : Nat
  BITS_PER_LONG : Nat
  clk_prepare_enable : Nat → Int
  readl_ctl : Nat → Nat
  readl_status : Nat → Nat
  readl_status_2nd : Nat → Nat
  jiffies : Nat → Nat
  bus_protection : Nat → Int

/-- The calls made so far and how many of each kind the surroundings have
answered. -/
structure State where
  trace : List Event
  n_clk : Nat
  n_ctl : Nat
  n_sta : Nat
  n_jiffies : Nat
  n_bus : Nat

def State.init : State :=
  { trace := [], n_clk := 0, n_ctl := 0, n_sta := 0, n_jiffies := 0, n_bus := 0 }

/-- How a polling loop is left. -/
inductive Poll where
  | done (s : State)
  | failed (ret : Int) (s : State)
  | spinning

/-! ## Kernel calls -/

def clk_prepare_enable (env : Env) (c : clk_id) (s : State) : Int × State :=
  let ret := env.clk_prepare_enable s.n_clk
  (ret, { s with trace := s.trace ++ [Event.clk_prepare_enable c ret],
                 n_clk := s.n_clk + 1 })

def clk_disable_unprepare (c : clk_id) (s : State) : State :=
  { s with trace := s.trace ++ [Event.clk_disable_unprepare c] }

/-- The call `readl(ctl_addr)`. -/
def readl_ctl (env : Env) (scpd : scp_domain) (s : State) : Nat × State :=
  let v := env.readl_ctl s.n_ctl % 2 ^ 32
  (v, { s with trace := s.trace ++ [Event.readl scpd.ctl_addr v],
               n_ctl := s.n_ctl + 1 })

def writel (val : Nat) (offs : Nat) (s : State) : State :=
  { s with trace := s.trace ++ [Event.writel val offs] }

/-- A reading of `jiffies`, an `unsigned long`. -/
def read_jiffies (env : Env) (s : State) : Nat × State :=
  let j := env.jiffies s.n_jiffies % 2 ^ env.BITS_PER_LONG
  (j, { s with trace := s.trace ++ [Event.jiffies j],
               n_jiffies := s.n_jiffies + 1 })

def cpu_relax (s : State) : State :=
  { s with trace := s.trace ++ [Event.cpu_relax] }

/-- The macro `time_after(a, b)` of `linux/jiffies.h`: `(long)(b - a) < 0` on
`unsigned long` operands. -/
def time_after (env : Env) (a b : Nat) : Bool :=
  decide (2 ^ (env.BITS_PER_LONG - 1) ≤
    (b + 2 ^ env.BITS_PER_LONG - a % 2 ^ env.BITS_PER_LONG) % 2 ^ env.BITS_PER_LONG)

def mtk_infracfg_clear_bus_protection (env : Env) (mask : Nat) (s : State) :
    Int × State :=
  let ret := env.bus_protection s.n_bus
  (ret, { s with trace := s.trace ++ [Event.clear_bus_protection mask ret],
                 n_bus := s.n_bus + 1 })

def mtk_infracfg_set_bus_protection (env : Env) (mask : Nat) (s : State) :
    Int × State :=
  let ret := env.bus_protection s.n_bus
  (ret, { s with trace := s.trace ++ [Event.set_bus_protection mask ret],
                 n_bus := s.n_bus + 1 })

def power_state_cb (state : Nat) (s : State) : State :=
  { s with trace := s.trace ++ [Event.power_state_cb state] }

def dev_err (s : State) : State :=
  { s with trace := s.trace ++ [Event.dev_err] }

/-! ## The driver -/

/-- The function `scpsys_domain_is_on`: `1` when both status bits are set,
`0` when neither is, `-EINVAL` otherwise. -/
def scpsys_domain_is_on (env : Env) (scpd : scp_domain) (s : State) : Int × State :=
  let r := env.readl_status s.n_sta % 2 ^ 32
  let status := r &&& scpd.sta_mask
  let r2 := env.readl_status_2nd s.n_sta % 2 ^ 32
  let status2 := r2 &&& scpd.sta_mask
  let s1 : State :=
    { s with
      trace := s.trace ++ [Event.readl SPM_PWR_STATUS r, Event.readl SPM_PWR_STATUS_2ND r2]
      n_sta := s.n_sta + 1 }
  if status ≠ 0 ∧ status2 ≠ 0 then (1, s1)
  else if status = 0 ∧ status2 = 0 then (0, s1)
  else (-EINVAL, s1)

/-- The inner loop of `scpsys_power_on` that undoes the clocks enabled before
a failing one: `for (--i; i >= 0; i--) clk_disable_unprepare(scpd->clk[i]);`.
The argument lists `clk[i-1], ..., clk[0]`. -/
def power_on_undo_clks : List clk_id → State → State
  | [], s => s
  | c :: cs, s => power_on_undo_clks cs (clk_disable_unprepare c s)

/-- The first loop of `scpsys_power_on`, over `scpd->clk[i], ..., clk[MAX_CLKS-1]`:
it stops at the first `NULL`; when an enable fails the clocks enabled so far
(`enabled`, the latest first) are disabled and control goes to `err_clk`. -/
def power_on_enable_clks (env : Env) :
    List (Option clk_id) → List clk_id → State → Except (Int × State) State
  | [], _, s => Except.ok s
  | none :: _, _, s => Except.ok s
  | some c :: rest, enabled, s =>
    let r := clk_prepare_enable env c s
    if r.1 ≠ 0 then Except.error (r.1, power_on_undo_clks enabled r.2)
    else power_on_enable_clks env rest (c :: enabled) r.2

/-- The loop under `err_pwr_ack`, given `clk[MAX_CLKS-1], ..., clk[0]`:
`if (scpd->clk[i]) clk_disable_unprepare(scpd->clk[i]);`. -/
def err_pwr_ack_disable_clks : List (Option clk_id) → State → State
  | [], s => s
  | none :: cs, s => err_pwr_ack_disable_clks cs s
  | some c :: cs, s => err_pwr_ack_disable_clks cs (clk_disable_unprepare c s)

/-- The last loop of `scpsys_power_off`, over `clk[0], ..., clk[MAX_CLKS-1]`:
`for (i = 0; i < MAX_CLKS && scpd->clk[i]; i++) clk_disable_unprepare(...)`. -/
def power_off_disable_clks : List (Option clk_id) → State → State
  | [], s => s
  | none :: _, s => s
  | some c :: cs, s => power_off_disable_clks cs (clk_disable_unprepare c s)

/-- The tail of a polling loop body: `cpu_relax(); if (time_after(jiffies,
timeout)) expired = true;`. -/
def relax_and_check_time (env : Env) (timeout : Nat) (expired : Bool) (s : State) :
    Bool × State :=
  let j := read_jiffies env (cpu_relax s)
  (if time_after env j.1 timeout then true else expired, j.2)

/-- The loop "wait until PWR_ACK = 1" of `scpsys_power_on`. -/
def power_on_wait_pwr_ack (env : Env) (scpd : scp_domain) (timeout : Nat) :
    Nat → Bool → State → Poll
  | 0, _, _ => Poll.spinning
  | fuel + 1, expired, s =>
    let r := scpsys_domain_is_on env scpd s
    if r.1 > 0 then Poll.done r.2
    else if expired then Poll.failed (-ETIMEDOUT) r.2
    else
      let t := relax_and_check_time env timeout expired r.2
      power_on_wait_pwr_ack env scpd timeout fuel t.1 t.2

/-- The loop "wait until SRAM_PDN_ACK all 0" of `scpsys_power_on`. -/
def power_on_wait_sram_ack (env : Env) (scpd : scp_domain) (timeout : Nat) :
    Nat → Bool → State → Poll
  | 0, _, _ => Poll.spinning
  | fuel + 1, expired, s =>
    if scpd.sram_pdn_ack_bits = 0 then Poll.done s
    else
      let r := readl_ctl env scpd s
      if r.1 &&& scpd.sram_pdn_ack_bits = 0 then Poll.done r.2
      else if expired then Poll.failed (-ETIMEDOUT) r.2
      else
        let t := relax_and_check_time env timeout expired r.2
        power_on_wait_sram_ack env scpd timeout fuel t.1 t.2

/-- The labels `err_pwr_ack:` and `err_clk:` of `scpsys_power_on`. -/
def power_on_err_clk (ret : Int) (s : State) : Int × State :=
  (ret, dev_err s)

def power_on_err_pwr_ack (scpd : scp_domain) (ret : Int) (s : State) : Int × State :=
  power_on_err_clk ret (err_pwr_ack_disable_clks (List.ofFn scpd.clk).reverse s)

/-- The function `scpsys_power_on`.  `none` means that a polling loop was
still spinning after `fuel` iterations. -/
def scpsys_power_on (env : Env) (scpd : scp_domain) (fuel : Nat) (s : State) :
    Option (Int × State) :=
  match power_on_enable_clks env (List.ofFn scpd.clk) [] s with
  | Except.error e => some (power_on_err_clk e.1 e.2)
  | Except.ok s =>
    let r := readl_ctl env scpd s
    let val := r.1 ||| PWR_ON_BIT
    let s := writel val scpd.ctl_addr r.2
    let val := val ||| PWR_ON_2ND_BIT
    let s := writel val scpd.ctl_addr s
    let j := read_jiffies env s
    let timeout := (j.1 + env.HZ) % 2 ^ env.BITS_PER_LONG
    match power_on_wait_pwr_ack env scpd timeout fuel false j.2 with
    | Poll.spinning => none
    | Poll.failed ret s => some (power_on_err_pwr_ack scpd ret s)
    | Poll.done s =>
      let val := val &&& not32 PWR_CLK_DIS_BIT
      let s := writel val scpd.ctl_addr s
      let val := val &&& not32 PWR_ISO_BIT
      let s := writel val scpd.ctl_addr s
      let val := val ||| PWR_RST_B_BIT
      let s := writel val scpd.ctl_addr s
      let val := val &&& not32 scpd.sram_pdn_bits
      let s := writel val scpd.ctl_addr s
      let j := read_jiffies env s
      let timeout := (j.1 + env.HZ) % 2 ^ env.BITS_PER_LONG
      match power_on_wait_sram_ack env scpd timeout fuel false j.2 with
      | Poll.spinning => none
      | Poll.failed ret s => some (power_on_err_pwr_ack scpd ret s)
      | Poll.done s =>
        let b := if scpd.bus_prot_mask ≠ 0
          then mtk_infracfg_clear_bus_protection env scpd.bus_prot_mask s
          else (0, s)
        if b.1 ≠ 0 then some (power_on_err_pwr_ack scpd b.1 b.2)
        else
          let s := if scpd.power_state_cb then power_state_cb 1 b.2 else b.2
          some (0, s)

/-- The loop "wait until SRAM_PDN_ACK all 1" of `scpsys_power_off`. -/
def power_off_wait_sram_ack (env : Env) (scpd : scp_domain) (timeout : Nat) :
    Nat → Bool → State → Poll
  | 0, _, _ => Poll.spinning
  | fuel + 1, expired, s =>
    if scpd.sram_pdn_ack_bits = 0 then Poll.done s
    else
      let r := readl_ctl env scpd s
      if r.1 &&& scpd.sram_pdn_ack_bits = scpd.sram_pdn_ack_bits then Poll.done r.2
      else if expired then Poll.failed (-ETIMEDOUT) r.2
      else
        let t := relax_and_check_time env timeout expired r.2
        power_off_wait_sram_ack env scpd timeout fuel t.1 t.2

/-- The loop "wait until PWR_ACK = 0" of `scpsys_power_off`. -/
def power_off_wait_pwr_ack (env : Env) (scpd : scp_domain) (timeout : Nat) :
    Nat → Bool → State → Poll
  | 0, _, _ => Poll.spinning
  | fuel + 1, expired, s =>
    let r := scpsys_domain_is_on env scpd s
    if r.1 = 0 then Poll.done r.2
    else if expired then Poll.failed (-ETIMEDOUT) r.2
    else
      let t := relax_and_check_time env timeout expired r.2
      power_off_wait_pwr_ack env scpd timeout fuel t.1 t.2

/-- The label `out:` of `scpsys_power_off`. -/
def power_off_out (ret : Int) (s : State) : Int × State :=
  (ret, dev_err s)

/-- The function `scpsys_power_off`.  `none` means that a polling loop was
still spinning after `fuel` iterations. -/
def scpsys_power_off (env : Env) (scpd : scp_domain) (fuel : Nat) (s : State) :
    Option (Int × State) :=
  let s := if scpd.power_state_cb then power_state_cb 0 s else s
  let b := if scpd.bus_prot_mask ≠ 0
    then mtk_infracfg_set_bus_protection env scpd.bus_prot_mask s
    else (0, s)
  if b.1 ≠ 0 then some (power_off_out b.1 b.2)
  else
    let r := readl_ctl env scpd b.2
    let val := r.1 ||| scpd.sram_pdn_bits
    let s := writel val scpd.ctl_addr r.2
    let j := read_jiffies env s
    let timeout := (j.1 + env.HZ) % 2 ^ env.BITS_PER_LONG
    match power_off_wait_sram_ack env scpd timeout fuel false j.2 with
    | Poll.spinning => none
    | Poll.failed ret s => some (power_off_out ret s)
    | Poll.done s =>
      let val := val ||| PWR_ISO_BIT
      let s := writel val scpd.ctl_addr s
      let val := val &&& not32 PWR_RST_B_BIT
      let s := writel val scpd.ctl_addr s
      let val := val ||| PWR_CLK_DIS_BIT
      let s := writel val scpd.ctl_addr s
      let val := val &&& not32 PWR_ON_BIT
      let s := writel val scpd.ctl_addr s
      let val := val &&& not32 PWR_ON_2ND_BIT
      let s := writel val scpd.ctl_addr s
      let j := read_jiffies env s
      let timeout := (j.1 + env.HZ) % 2 ^ env.BITS_PER_LONG
      match power_off_wait_pwr_ack env scpd timeout fuel false j.2 with
      | Poll.spinning => none
      | Poll.failed ret s => some (power_off_out ret s)
      | Poll.done s =>
        some (0, power_off_disable_clks (List.ofFn scpd.clk) s)

/-- The clock handle that `scpsys_probe` stores for a table entry:
`clk[data->clk_id[j]]`, and `NULL` from the sentinel on
(`for (j = 0; j < MAX_CLKS && data->clk_id[j]; j++)` over a zeroed array). -/
def probe_clks : List clk_id → List (Option clk_id)
  | [] => []
  | clk_id.MT8163_CLK_NONE :: rest => none :: rest.map (fun _ => none)
  | c :: rest => some c :: probe_clks rest

/-- The per-domain part of the loop of `scpsys_probe` that fills a
`struct scp_domain` from its table entry.  Nothing in the driver sets
`power_state_cb`, which stays `NULL` from the zeroing allocation. -/
def scpsys_probe_domain (data : scp_domain_data) : scp_domain :=
  { clk := fun i => (probe_clks (List.ofFn data.clk_id)).getD i none,
    sta_mask := data.sta_mask,
    ctl_addr := data.ctl_offs,
    sram_pdn_bits := data.sram_pdn_bits,
    sram_pdn_ack_bits := data.sram_pdn_ack_bits,
    bus_prot_mask := data.bus_prot_mask,
    active_wakeup := data.active_wakeup,
    power_state_cb := false }

/-! ## Reading traces -/

/-- The events a polling loop may add to a trace: register reads, readings of
the tick counter and `cpu_relax`. -/
def Event.is_poll : Event → Bool
  | Event.readl _ _ => true
  | Event.jiffies _ => true
  | Event.cpu_relax => true
  | _ => false

/-- The register writes of a trace, in order, as pairs (value, offset). -/
def writels (tr : List Event) : List (Nat × Nat) :=
  tr.filterMap (fun e => match e with
    | Event.writel v a => some (v, a)
    | _ => none)

/-- Whether an event is a clock call. -/
def Event.is_clk : Event → Bool
  | Event.clk_prepare_enable _ _ => true
  | Event.clk_disable_unprepare _ => true
  | _ => false

/-- The clock calls of a trace, in order. -/
def clk_calls (tr : List Event) : List Event :=
  tr.filter Event.is_clk

/-- What a status poll adds to the trace when it ends at a check that read `r`
and `r2`: the tick reading at loop start, polling events, and last the reads
of the two status registers. -/
def status_poll_ending (p : List Event) (r r2 : Nat) : Prop :=
  ∃ j q, p = Event.jiffies j ::
      (q ++ [Event.readl SPM_PWR_STATUS r, Event.readl SPM_PWR_STATUS_2ND r2]) ∧
    ∀ e ∈ q, e.is_poll = true

/-- What an SRAM-acknowledge poll adds to the trace when it ends at a read of
the control register that found `r`: the tick reading at loop start, polling
events, and last that read. -/
def sram_poll_ending (scpd : scp_domain) (p : List Event) (r : Nat) : Prop :=
  ∃ j q, p = Event.jiffies j :: (q ++ [Event.readl scpd.ctl_addr r]) ∧
    ∀ e ∈ q, e.is_poll = true

/-- The first three register accesses of `scpsys_power_on` when the control
register reads `v0`: the read and the writes that set `PWR_ON_BIT` and then
`PWR_ON_2ND_BIT`. -/
def power_on_request (scpd : scp_domain) (v0 : Nat) : List Event :=
  [Event.readl scpd.ctl_addr v0,
   Event.writel (v0 ||| PWR_ON_BIT) scpd.ctl_addr,
   Event.writel (v0 ||| PWR_ON_BIT ||| PWR_ON_2ND_BIT) scpd.ctl_addr]

/-- The four writes of `scpsys_power_on` that follow the status poll. -/
def power_on_release (scpd : scp_domain) (v0 : Nat) : List Event :=
  [Event.writel ((v0 ||| PWR_ON_BIT ||| PWR_ON_2ND_BIT) &&& not32 PWR_CLK_DIS_BIT)
     scpd.ctl_addr,
   Event.writel ((v0 ||| PWR_ON_BIT ||| PWR_ON_2ND_BIT) &&& not32 PWR_CLK_DIS_BIT
     &&& not32 PWR_ISO_BIT) scpd.ctl_addr,
   Event.writel ((v0 ||| PWR_ON_BIT ||| PWR_ON_2ND_BIT) &&& not32 PWR_CLK_DIS_BIT
     &&& not32 PWR_ISO_BIT ||| PWR_RST_B_BIT) scpd.ctl_addr,
   Event.writel (((v0 ||| PWR_ON_BIT ||| PWR_ON_2ND_BIT) &&& not32 PWR_CLK_DIS_BIT
     &&& not32 PWR_ISO_BIT ||| PWR_RST_B_BIT) &&& not32 scpd.sram_pdn_bits)
     scpd.ctl_addr]

/-- The first two register accesses of `scpsys_power_off` when the control
register reads `v0`: the read and the write that sets the SRAM power-down
bits. -/
def power_off_request (scpd : scp_domain) (v0 : Nat) : List Event :=
  [Event.readl scpd.ctl_addr v0,
   Event.writel (v0 ||| scpd.sram_pdn_bits) scpd.ctl_addr]

/-- The five writes of `scpsys_power_off` that follow the SRAM poll. -/
def power_off_isolate (scpd : scp_domain) (v0 : Nat) : List Event :=
  [Event.writel (v0 ||| scpd.sram_pdn_bits ||| PWR_ISO_BIT) scpd.ctl_addr,
   Event.writel ((v0 ||| scpd.sram_pdn_bits ||| PWR_ISO_BIT) &&& not32 PWR_RST_B_BIT)
     scpd.ctl_addr,
   Event.writel ((v0 ||| scpd.sram_pdn_bits ||| PWR_ISO_BIT) &&& not32 PWR_RST_B_BIT
     ||| PWR_CLK_DIS_BIT) scpd.ctl_addr,
   Event.writel (((v0 ||| scpd.sram_pdn_bits ||| PWR_ISO_BIT) &&& not32 PWR_RST_B_BIT
     ||| PWR_CLK_DIS_BIT) &&& not32 PWR_ON_BIT) scpd.ctl_addr,
   Event.writel (((v0 ||| scpd.sram_pdn_bits ||| PWR_ISO_BIT) &&& not32 PWR_RST_B_BIT
     ||| PWR_CLK_DIS_BIT) &&& not32 PWR_ON_BIT &&& not32 PWR_ON_2ND_BIT) scpd.ctl_addr]

/-- What `scpsys_power_off` does before it touches the control register when
the bus-protection call, if any, succeeds: the callback and that call. -/
def power_off_prologue (scpd : scp_domain) : List Event :=
  (if scpd.power_state_cb then [Event.power_state_cb 0] else []) ++
  (if scpd.bus_prot_mask ≠ 0 then [Event.set_bus_protection scpd.bus_prot_mask 0] else [])

/-- The run-time domain that `scpsys_probe` sets up for the table entry
"vdec". -/
def vdec (ic : infracfg_masks) : scp_domain :=
  scpsys_probe_domain (scp_domain_data_table ic power_domain.MT8163_POWER_DOMAIN_VDEC)

/-- Value `w` agrees with value `v` on every bit other than bits 0 to 4 and
the bits of `sram`. -/
def unchanged_outside (sram v w : Nat) : Prop :=
  ∀ i, 4 < i → sram.testBit i = false → w.testBit i = v.testBit i

/-- The powered-off pattern of a control register value: power-on bits 2 and 3
and reset bit 0 clear, isolation bit 1 and clock-disable bit 4 set, all SRAM
power-down bits set. -/
def powered_off_pattern (scpd : scp_domain) (v : Nat) : Prop :=
  v.testBit 2 = false ∧ v.testBit 3 = false ∧ v.testBit 0 = false ∧
  v.testBit 1 = true ∧ v.testBit 4 = true ∧
  v &&& scpd.sram_pdn_bits = scpd.sram_pdn_bits

instance (scpd : scp_domain) (v : Nat) : Decidable (powered_off_pattern scpd v) := by
  unfold powered_off_pattern; infer_instance

/-- Time goes on: after any reading of the tick counter there is a later
reading that is after any given deadline. -/
def ticks_advance (env : Env) : Prop :=
  ∀ j timeout, ∃ n,
    time_after env (env.jiffies (j + n) % 2 ^ env.BITS_PER_LONG) timeout = true

/-- The array `scpd->clk` holds the clocks `cs`, in declared order, followed
by `NULL` entries. -/
def has_clks (scpd : scp_domain) (cs : List clk_id) : Prop :=
  List.ofFn scpd.clk = cs.map some ++ List.replicate (MAX_CLKS - cs.length) none

instance (scpd : scp_domain) (cs : List clk_id) : Decidable (has_clks scpd cs) := by
  unfold has_clks; infer_instance

/-- The entries of a clock array before its first `NULL`. -/
def leading_clks : List (Option clk_id) → List clk_id
  | some c :: rest => c :: leading_clks rest
  | _ => []

/-- The clocks of a domain as the loops `i < MAX_CLKS && scpd->clk[i]` see
them: the entries of `scpd->clk` before the first `NULL`. -/
def domain_clks (scpd : scp_domain) : List clk_id :=
  leading_clks (List.ofFn scpd.clk)

/-- All entries of `scpd->clk` that are not `NULL`, the last first, as the
loop under `err_pwr_ack` sees them. -/
def rollback_clks (scpd : scp_domain) : List clk_id :=
  (List.ofFn scpd.clk).reverse.filterMap id

/-- State `s'` continues `s` by polling events only. -/
def Polled (s s' : State) : Prop :=
  ∃ evs, s'.trace = s.trace ++ evs ∧ (∀ e ∈ evs, e.is_poll = true) ∧
    s'.n_clk = s.n_clk ∧ s'.n_bus = s.n_bus


/-! ## The controller and the domain graph -/

/-- Stand-in values for the infracfg masks, which are not in the driver
source.  The samples below only use that the mask of "mm" is not zero; "vdec"
has no bus-protection mask at all. -/
def sample_masks : infracfg_masks :=
  { MT8163_TOP_AXI_PROT_EN_MM_M0 := BIT 1,
    MT8163_TOP_AXI_PROT_EN_MFG_M0 := BIT 14,
    MT8163_TOP_AXI_PROT_EN_MFG_SNOOP_OUT := BIT 23,
    MT8163_TOP_AXI_PROT_EN_CCI_M2 := BIT 4,
    MT8163_TOP_AXI_PROT_EN_CONN2EMI := BIT 2,
    MT8163_TOP_AXI_PROT_EN_CONN2PERI := BIT 8 }

/-- The run-time domain that `scpsys_probe` sets up for the table entry "mm". -/
def disp (ic : infracfg_masks) : scp_domain :=
  scpsys_probe_domain (scp_domain_data_table ic power_domain.MT8163_POWER_DOMAIN_DISP)

/-- A domain with two clocks, which `struct scp_domain` allows
(`MAX_CLKS` is 2) although no entry of the table has more than one. -/
def two_clk_domain : scp_domain :=
  { clk := ![some clk_id.MT8163_CLK_MM, some clk_id.MT8163_CLK_MFG],
    sta_mask := BIT 4, ctl_addr := SPM_MFG_PWR_CON,
    sram_pdn_bits := GENMASK 13 8, sram_pdn_ack_bits := 0,
    bus_prot_mask := 0, active_wakeup := false, power_state_cb := false }

/-- Surroundings given by the lists of values that the reads of the control
register and of the two status registers find (0 once a list is used up), the
return codes of the clock enables and the return code of the bus-protection
call; `HZ` is 250, `unsigned long` has 64 bits and the tick counter advances by
one between two readings. -/
def sample_env (clk : Nat → Int) (ctl sta sta2 : List Nat) (bus : Int) : Env :=
  { HZ := 250, BITS_PER_LONG := 64,
    clk_prepare_enable := clk,
    readl_ctl := fun k => ctl.getD k 0,
    readl_status := fun k => sta.getD k 0,
    readl_status_2nd := fun k => sta2.getD k 0,
    jiffies := fun k => 1000 + k,
    bus_protection := fun _ => bus }

/-- Surroundings in which "vdec" comes up at the third status check and
acknowledges the SRAM power-up at the second read, and later goes down at the
third status check and acknowledges the SRAM power-down at the second read.
The control register holds `0xf12` at first and reads back `0x00d`, the value
written last, when `scpsys_power_off` starts. -/
def env_up_down : Env :=
  sample_env (fun _ => 0) [0xf12, 0x100d, 0x000d, 0x000d, 0x0f0d, 0x1f0d]
    [0, 0x80, 0x80, 0x80, 0, 0] [0, 0, 0x80, 0x80, 0x80, 0] 0

/-- Surroundings in which a powered-on domain without acknowledge wait goes
down at once. -/
def env_down : Env :=
  sample_env (fun _ => 0) [0x000d, 0x1f0d] [0] [0] 0

/-- Surroundings in which the second clock enable returns `-EIO`. -/
def env_clk_fails : Env :=
  sample_env (fun k => if k = 1 then -5 else 0) [] [] [] 0

/-- Surroundings in which "mm" comes up at once and the bus-protection call
returns `-EIO`. -/
def env_bus_fails : Env :=
  sample_env (fun _ => 0) [0xf12, 0x000d] [8] [8] (-5)

/-- The state in which `scpsys_power_on` of "vdec" leaves the initial state
in the surroundings `env_up_down`. -/
def up_state : State :=
  { trace :=
      [Event.clk_prepare_enable clk_id.MT8163_CLK_MM 0,
       Event.readl 0x0210 0xf12,
       Event.writel 0xf16 0x0210,
       Event.writel 0xf1e 0x0210,
       Event.jiffies 1000,
       Event.readl 0x060c 0, Event.readl 0x0610 0, Event.cpu_relax, Event.jiffies 1001,
       Event.readl 0x060c 0x80, Event.readl 0x0610 0, Event.cpu_relax, Event.jiffies 1002,
       Event.readl 0x060c 0x80, Event.readl 0x0610 0x80,
       Event.writel 0xf0e 0x0210,
       Event.writel 0xf0c 0x0210,
       Event.writel 0xf0d 0x0210,
       Event.writel 0x00d 0x0210,
       Event.jiffies 1003,
       Event.readl 0x0210 0x100d, Event.cpu_relax, Event.jiffies 1004,
       Event.readl 0x0210 0x00d],
    n_clk := 1, n_ctl := 3, n_sta := 3, n_jiffies := 5, n_bus := 0 }

/-- What `scpsys_power_off` of "vdec" adds to the trace of `up_state` in the
surroundings `env_up_down`. -/
def down_events : List Event :=
  [Event.readl 0x0210 0x00d,
   Event.writel 0xf0d 0x0210,
   Event.jiffies 1005,
   Event.readl 0x0210 0xf0d, Event.cpu_relax, Event.jiffies 1006,
   Event.readl 0x0210 0x1f0d,
   Event.writel 0xf0f 0x0210,
   Event.writel 0xf0e 0x0210,
   Event.writel 0xf1e 0x0210,
   Event.writel 0xf1a 0x0210,
   Event.writel 0xf12 0x0210,
   Event.jiffies 1007,
   Event.readl 0x060c 0x80, Event.readl 0x0610 0x80, Event.cpu_relax, Event.jiffies 1008,
   Event.readl 0x060c 0, Event.readl 0x0610 0x80, Event.cpu_relax, Event.jiffies 1009,
   Event.readl 0x060c 0, Event.readl 0x0610 0,
   Event.clk_disable_unprepare clk_id.MT8163_CLK_MM]

/-- The state in which `scpsys_power_off` of "vdec" leaves `up_state` in the
surroundings `env_up_down`. -/
def down_state : State :=
  { trace := up_state.trace ++ down_events,
    n_clk := 1, n_ctl := 6, n_sta := 6, n_jiffies := 10, n_bus := 0 }

/-- The state in which `scpsys_power_off` of "vdec" leaves the initial state
in the surroundings `env_down`. -/
def vdec_off_state : State :=
  { trace :=
      [Event.readl 0x0210 0x00d,
       Event.writel 0xf0d 0x0210,
       Event.jiffies 1000,
       Event.readl 0x0210 0x1f0d,
       Event.writel 0xf0f 0x0210,
       Event.writel 0xf0e 0x0210,
       Event.writel 0xf1e 0x0210,
       Event.writel 0xf1a 0x0210,
       Event.writel 0xf12 0x0210,
       Event.jiffies 1001,
       Event.readl 0x060c 0, Event.readl 0x0610 0,
       Event.clk_disable_unprepare clk_id.MT8163_CLK_MM],
    n_clk := 0, n_ctl := 2, n_sta := 1, n_jiffies := 2, n_bus := 0 }

/-- The state in which `scpsys_power_off` of the two-clock domain leaves the
initial state in the surroundings `env_down`. -/
def two_clk_off_state : State :=
  { trace :=
      [Event.readl 0x0214 0x00d,
       Event.writel 0x3f0d 0x0214,
       Event.jiffies 1000,
       Event.writel 0x3f0f 0x0214,
       Event.writel 0x3f0e 0x0214,
       Event.writel 0x3f1e 0x0214,
       Event.writel 0x3f1a 0x0214,
       Event.writel 0x3f12 0x0214,
       Event.jiffies 1001,
       Event.readl 0x060c 0, Event.readl 0x0610 0,
       Event.clk_disable_unprepare clk_id.MT8163_CLK_MM,
       Event.clk_disable_unprepare clk_id.MT8163_CLK_MFG],
    n_clk := 0, n_ctl := 1, n_sta := 1, n_jiffies := 2, n_bus := 0 }

/-- The state in which `scpsys_power_on` of "mm" leaves the initial state in
the surroundings `env_bus_fails`. -/
def bus_failed_state : State :=
  { trace :=
      [Event.clk_prepare_enable clk_id.MT8163_CLK_MM 0,
       Event.readl 0x023c 0xf12,
       Event.writel 0xf16 0x023c,
       Event.writel 0xf1e 0x023c,
       Event.jiffies 1000,
       Event.readl 0x060c 8, Event.readl 0x0610 8,
       Event.writel 0xf0e 0x023c,
       Event.writel 0xf0c 0x023c,
       Event.writel 0xf0d 0x023c,
       Event.writel 0x00d 0x023c,
       Event.jiffies 1001,
       Event.readl 0x023c 0x00d,
       Event.clear_bus_protection 2 (-5),
       Event.clk_disable_unprepare clk_id.MT8163_CLK_MM,
       Event.dev_err],
    n_clk := 1, n_ctl := 2, n_sta := 1, n_jiffies := 2, n_bus := 1 }

theorem Polled.refl (s : State) : Polled s s :=
  ⟨[], by simp, by simp, rfl, rfl⟩

theorem Polled.trans {s t u : State} (h1 : Polled s t) (h2 : Polled t u) : Polled s u := by
  obtain ⟨e1, ht, hp1, hc1, hb1⟩ := h1
  obtain ⟨e2, hu, hp2, hc2, hb2⟩ := h2
  refine ⟨e1 ++ e2, by rw [hu, ht, List.append_assoc], ?_, by rw [hc2, hc1], by rw [hb2, hb1]⟩
  intro e he
  rcases List.mem_append.1 he with h | h
  · exact hp1 e h
  · exact hp2 e h

theorem polled_is_on (env : Env) (scpd : scp_domain) (s : State) :
    Polled s (scpsys_domain_is_on env scpd s).2 := by
  refine ⟨[Event.readl SPM_PWR_STATUS (env.readl_status s.n_sta % 2 ^ 32),
    Event.readl SPM_PWR_STATUS_2ND (env.readl_status_2nd s.n_sta % 2 ^ 32)], ?_, ?_, ?_, ?_⟩
  · unfold scpsys_domain_is_on; simp only; split_ifs <;> rfl
  · intro e he; simp at he; rcases he with rfl | rfl <;> rfl
  · unfold scpsys_domain_is_on; simp only; split_ifs <;> rfl
  · unfold scpsys_domain_is_on; simp only; split_ifs <;> rfl

theorem polled_readl_ctl (env : Env) (scpd : scp_domain) (s : State) :
    Polled s (readl_ctl env scpd s).2 :=
  ⟨[Event.readl scpd.ctl_addr (env.readl_ctl s.n_ctl % 2 ^ 32)], rfl,
    by intro e he; simp at he; subst he; rfl, rfl, rfl⟩

theorem polled_read_jiffies (env : Env) (s : State) :
    Polled s (read_jiffies env s).2 :=
  ⟨[Event.jiffies (env.jiffies s.n_jiffies % 2 ^ env.BITS_PER_LONG)], rfl,
    by intro e he; simp at he; subst he; rfl, rfl, rfl⟩

theorem polled_relax (env : Env) (timeout : Nat) (expired : Bool) (s : State) :
    Polled s (relax_and_check_time env timeout expired s).2 := by
  have h1 : Polled s (cpu_relax s) :=
    ⟨[Event.cpu_relax], rfl, by intro e he; simp at he; subst he; rfl, rfl, rfl⟩
  exact h1.trans (polled_read_jiffies env (cpu_relax s))

theorem is_on_values (env : Env) (scpd : scp_domain) (s : State) :
    (scpsys_domain_is_on env scpd s).1 = 1 ∨ (scpsys_domain_is_on env scpd s).1 = 0 ∨
      (scpsys_domain_is_on env scpd s).1 = -EINVAL := by
  unfold scpsys_domain_is_on; simp only; split_ifs <;> simp

theorem is_on_pos_iff (env : Env) (scpd : scp_domain) (s : State) :
    (scpsys_domain_is_on env scpd s).1 > 0 ↔ (scpsys_domain_is_on env scpd s).1 = 1 := by
  rcases is_on_values env scpd s with h | h | h <;> rw [h] <;> simp [EINVAL]

/-- The power-on status poll: when it is left normally, the last status check
returned 1; when it fails, it fails with `-ETIMEDOUT` after a check that did
not return 1. -/
theorem power_on_wait_pwr_ack_spec (env : Env) (scpd : scp_domain) (timeout : Nat) :
    ∀ (fuel : Nat) (expired : Bool) (s : State),
      (∀ s', power_on_wait_pwr_ack env scpd timeout fuel expired s = Poll.done s' →
        ∃ t, Polled s t ∧ (scpsys_domain_is_on env scpd t).1 = 1 ∧
          s' = (scpsys_domain_is_on env scpd t).2) ∧
      (∀ ret s', power_on_wait_pwr_ack env scpd timeout fuel expired s = Poll.failed ret s' →
        ret = -ETIMEDOUT ∧ ∃ t, Polled s t ∧ (scpsys_domain_is_on env scpd t).1 ≠ 1 ∧
          s' = (scpsys_domain_is_on env scpd t).2) := by
  intro fuel
  induction fuel with
  | zero => intro expired s; constructor <;> intros <;> simp [power_on_wait_pwr_ack] at *
  | succ n ih =>
    intro expired s
    have hstep : Polled s (relax_and_check_time env timeout expired
        (scpsys_domain_is_on env scpd s).2).2 :=
      (polled_is_on env scpd s).trans (polled_relax env timeout expired _)
    constructor
    · intro s' h
      rw [power_on_wait_pwr_ack] at h
      simp only at h
      split_ifs at h with h1 h2
      · injection h with h
        exact ⟨s, Polled.refl s, (is_on_pos_iff env scpd s).1 h1, h.symm⟩
      · obtain ⟨t, ht, h3, h4⟩ := (ih _ _).1 s' h
        exact ⟨t, hstep.trans ht, h3, h4⟩
    · intro ret s' h
      rw [power_on_wait_pwr_ack] at h
      simp only at h
      split_ifs at h with h1 h2
      · injection h with h h'
        exact ⟨h.symm, s, Polled.refl s, fun hc => h1 ((is_on_pos_iff env scpd s).2 hc),
          h'.symm⟩
      · obtain ⟨hr, t, ht, h3, h4⟩ := (ih _ _).2 ret s' h
        exact ⟨hr, t, hstep.trans ht, h3, h4⟩

/-- The power-off status poll: when it is left normally, the last status check
returned 0; when it fails, it fails with `-ETIMEDOUT` after a check that did
not return 0. -/
theorem power_off_wait_pwr_ack_spec (env : Env) (scpd : scp_domain) (timeout : Nat) :
    ∀ (fuel : Nat) (expired : Bool) (s : State),
      (∀ s', power_off_wait_pwr_ack env scpd timeout fuel expired s = Poll.done s' →
        ∃ t, Polled s t ∧ (scpsys_domain_is_on env scpd t).1 = 0 ∧
          s' = (scpsys_domain_is_on env scpd t).2) ∧
      (∀ ret s', power_off_wait_pwr_ack env scpd timeout fuel expired s = Poll.failed ret s' →
        ret = -ETIMEDOUT ∧ ∃ t, Polled s t ∧ (scpsys_domain_is_on env scpd t).1 ≠ 0 ∧
          s' = (scpsys_domain_is_on env scpd t).2) := by
  intro fuel
  induction fuel with
  | zero => intro expired s; constructor <;> intros <;> simp [power_off_wait_pwr_ack] at *
  | succ n ih =>
    intro expired s
    have hstep : Polled s (relax_and_check_time env timeout expired
        (scpsys_domain_is_on env scpd s).2).2 :=
      (polled_is_on env scpd s).trans (polled_relax env timeout expired _)
    constructor
    · intro s' h
      rw [power_off_wait_pwr_ack] at h
      simp only at h
      split_ifs at h with h1 h2
      · injection h with h
        exact ⟨s, Polled.refl s, h1, h.symm⟩
      · obtain ⟨t, ht, h3, h4⟩ := (ih _ _).1 s' h
        exact ⟨t, hstep.trans ht, h3, h4⟩
    · intro ret s' h
      rw [power_off_wait_pwr_ack] at h
      simp only at h
      split_ifs at h with h1 h2
      · injection h with h h'
        exact ⟨h.symm, s, Polled.refl s, h1, h'.symm⟩
      · obtain ⟨hr, t, ht, h3, h4⟩ := (ih _ _).2 ret s' h
        exact ⟨hr, t, hstep.trans ht, h3, h4⟩

/-- The power-on SRAM poll: it is left normally either without any read (no
acknowledge bits) or after a read that found all acknowledge bits clear. -/
theorem power_on_wait_sram_ack_spec (env : Env) (scpd : scp_domain) (timeout : Nat) :
    ∀ (fuel : Nat) (expired : Bool) (s : State),
      (∀ s', power_on_wait_sram_ack env scpd timeout fuel expired s = Poll.done s' →
        (scpd.sram_pdn_ack_bits = 0 ∧ s' = s) ∨
        (scpd.sram_pdn_ack_bits ≠ 0 ∧ ∃ t, Polled s t ∧
          (readl_ctl env scpd t).1 &&& scpd.sram_pdn_ack_bits = 0 ∧
          s' = (readl_ctl env scpd t).2)) ∧
      (∀ ret s', power_on_wait_sram_ack env scpd timeout fuel expired s = Poll.failed ret s' →
        ret = -ETIMEDOUT ∧ scpd.sram_pdn_ack_bits ≠ 0 ∧ ∃ t, Polled s t ∧
          (readl_ctl env scpd t).1 &&& scpd.sram_pdn_ack_bits ≠ 0 ∧
          s' = (readl_ctl env scpd t).2) := by
  intro fuel
  induction fuel with
  | zero => intro expired s; constructor <;> intros <;> simp [power_on_wait_sram_ack] at *
  | succ n ih =>
    intro expired s
    have hstep : Polled s (relax_and_check_time env timeout expired
        (readl_ctl env scpd s).2).2 :=
      (polled_readl_ctl env scpd s).trans (polled_relax env timeout expired _)
    constructor
    · intro s' h
      rw [power_on_wait_sram_ack] at h
      simp only at h
      split_ifs at h with h0 h1 h2
      · injection h with h
        exact Or.inl ⟨h0, h.symm⟩
      · injection h with h
        exact Or.inr ⟨h0, s, Polled.refl s, h1, h.symm⟩
      · rcases (ih _ _).1 s' h with ⟨h3, _⟩ | ⟨_, t, ht, h3, h4⟩
        · exact absurd h3 h0
        · exact Or.inr ⟨h0, t, hstep.trans ht, h3, h4⟩
    · intro ret s' h
      rw [power_on_wait_sram_ack] at h
      simp only at h
      split_ifs at h with h0 h1 h2
      · injection h with h h'
        exact ⟨h.symm, h0, s, Polled.refl s, h1, h'.symm⟩
      · obtain ⟨hr, _, t, ht, h3, h4⟩ := (ih _ _).2 ret s' h
        exact ⟨hr, h0, t, hstep.trans ht, h3, h4⟩

/-- The power-off SRAM poll: it is left normally either without any read (no
acknowledge bits) or after a read that found all acknowledge bits set. -/
theorem power_off_wait_sram_ack_spec (env : Env) (scpd : scp_domain) (timeout : Nat) :
    ∀ (fuel : Nat) (expired : Bool) (s : State),
      (∀ s', power_off_wait_sram_ack env scpd timeout fuel expired s = Poll.done s' →
        (scpd.sram_pdn_ack_bits = 0 ∧ s' = s) ∨
        (scpd.sram_pdn_ack_bits ≠ 0 ∧ ∃ t, Polled s t ∧
          (readl_ctl env scpd t).1 &&& scpd.sram_pdn_ack_bits = scpd.sram_pdn_ack_bits ∧
          s' = (readl_ctl env scpd t).2)) ∧
      (∀ ret s', power_off_wait_sram_ack env scpd timeout fuel expired s = Poll.failed ret s' →
        ret = -ETIMEDOUT ∧ scpd.sram_pdn_ack_bits ≠ 0 ∧ ∃ t, Polled s t ∧
          (readl_ctl env scpd t).1 &&& scpd.sram_pdn_ack_bits ≠ scpd.sram_pdn_ack_bits ∧
          s' = (readl_ctl env scpd t).2) := by
  intro fuel
  induction fuel with
  | zero => intro expired s; constructor <;> intros <;> simp [power_off_wait_sram_ack] at *
  | succ n ih =>
    intro expired s
    have hstep : Polled s (relax_and_check_time env timeout expired
        (readl_ctl env scpd s).2).2 :=
      (polled_readl_ctl env scpd s).trans (polled_relax env timeout expired _)
    constructor
    · intro s' h
      rw [power_off_wait_sram_ack] at h
      simp only at h
      split_ifs at h with h0 h1 h2
      · injection h with h
        exact Or.inl ⟨h0, h.symm⟩
      · injection h with h
        exact Or.inr ⟨h0, s, Polled.refl s, h1, h.symm⟩
      · rcases (ih _ _).1 s' h with ⟨h3, _⟩ | ⟨_, t, ht, h3, h4⟩
        · exact absurd h3 h0
        · exact Or.inr ⟨h0, t, hstep.trans ht, h3, h4⟩
    · intro ret s' h
      rw [power_off_wait_sram_ack] at h
      simp only at h
      split_ifs at h with h0 h1 h2
      · injection h with h h'
        exact ⟨h.symm, h0, s, Polled.refl s, h1, h'.symm⟩
      · obtain ⟨hr, _, t, ht, h3, h4⟩ := (ih _ _).2 ret s' h
        exact ⟨hr, h0, t, hstep.trans ht, h3, h4⟩

/-! ## Clock loops -/

theorem power_on_undo_clks_eq (l : List clk_id) (s : State) :
    power_on_undo_clks l s =
      { s with trace := s.trace ++ l.map Event.clk_disable_unprepare } := by
  induction l generalizing s with
  | nil => simp [power_on_undo_clks]
  | cons c cs ih => simp [power_on_undo_clks, ih, clk_disable_unprepare]

/-- Under `err_pwr_ack` every clock of the array is disabled, in the order of
the list handed to the loop. -/
theorem err_pwr_ack_disable_clks_eq (l : List (Option clk_id)) (s : State) :
    err_pwr_ack_disable_clks l s =
      { s with trace := s.trace ++ (l.filterMap id).map Event.clk_disable_unprepare } := by
  induction l generalizing s with
  | nil => simp [err_pwr_ack_disable_clks]
  | cons c cs ih =>
    cases c with
    | none => simp [err_pwr_ack_disable_clks, ih]
    | some c => simp [err_pwr_ack_disable_clks, ih, clk_disable_unprepare]

/-- At the end of `scpsys_power_off` the clocks before the first `NULL` are
disabled, the first first. -/
theorem power_off_disable_clks_eq (l : List (Option clk_id)) (s : State) :
    power_off_disable_clks l s =
      { s with trace := s.trace ++ (leading_clks l).map Event.clk_disable_unprepare } := by
  induction l generalizing s with
  | nil => simp [power_off_disable_clks, leading_clks]
  | cons c cs ih =>
    cases c with
    | none => simp [power_off_disable_clks, leading_clks]
    | some c => simp [power_off_disable_clks, leading_clks, ih, clk_disable_unprepare]

theorem power_on_enable_clks_cons (env : Env) (c : clk_id) (rest : List (Option clk_id))
    (en : List clk_id) (s : State) :
    power_on_enable_clks env (some c :: rest) en s =
      if (clk_prepare_enable env c s).1 ≠ 0
      then Except.error ((clk_prepare_enable env c s).1,
        power_on_undo_clks en (clk_prepare_enable env c s).2)
      else power_on_enable_clks env rest (c :: en) (clk_prepare_enable env c s).2 := rfl

/-- The enable loop, when every enable succeeds. -/
theorem power_on_enable_clks_ok (env : Env) (l : List (Option clk_id)) :
    ∀ (en : List clk_id) (s : State),
      (∀ i, i < (leading_clks l).length → env.clk_prepare_enable (s.n_clk + i) = 0) →
      power_on_enable_clks env l en s =
        Except.ok { s with
          trace := s.trace ++ (leading_clks l).map (fun c => Event.clk_prepare_enable c 0)
          n_clk := s.n_clk + (leading_clks l).length } := by
  induction l with
  | nil => intro en s _; simp [power_on_enable_clks, leading_clks]
  | cons o rest ih =>
    cases o with
    | none => intro en s _; simp [power_on_enable_clks, leading_clks]
    | some c =>
      intro en s h
      simp only [leading_clks, List.length_cons] at h
      have h0 : env.clk_prepare_enable s.n_clk = 0 := by simpa using h 0 (by omega)
      have hs : ∀ i, i < (leading_clks rest).length →
          env.clk_prepare_enable (s.n_clk + 1 + i) = 0 := by
        intro i hi
        have := h (i + 1) (by omega)
        rwa [show s.n_clk + 1 + i = s.n_clk + (i + 1) by omega]
      have h1 : (clk_prepare_enable env c s).1 = 0 := h0
      rw [power_on_enable_clks_cons, if_neg (by simp [h1]),
        ih (c :: en) _ (by simpa [clk_prepare_enable] using hs)]
      simp [clk_prepare_enable, leading_clks, h0, Nat.add_assoc, Nat.add_comm 1]

/-- The enable loop, when the clock after `pre` is the first that fails. -/
theorem power_on_enable_clks_fail (env : Env) (c : clk_id)
    (post : List clk_id) (e : Int) (he : e ≠ 0) (pre : List clk_id) :
    ∀ (l : List (Option clk_id)) (en : List clk_id) (s : State),
      leading_clks l = pre ++ c :: post →
      (∀ i, i < pre.length → env.clk_prepare_enable (s.n_clk + i) = 0) →
      env.clk_prepare_enable (s.n_clk + pre.length) = e →
      power_on_enable_clks env l en s =
        Except.error (e, { s with
          trace := s.trace ++ pre.map (fun c => Event.clk_prepare_enable c 0) ++
            [Event.clk_prepare_enable c e] ++
            (pre.reverse ++ en).map Event.clk_disable_unprepare
          n_clk := s.n_clk + pre.length + 1 }) := by
  induction pre with
  | nil =>
    intro l en s hl _ h
    simp only [List.length_nil, Nat.add_zero] at h
    match l, hl with
    | some c' :: rest, hl =>
      simp only [leading_clks, List.nil_append, List.cons.injEq] at hl
      obtain ⟨rfl, _⟩ := hl
      simp [power_on_enable_clks, clk_prepare_enable, h, he, power_on_undo_clks_eq]
  | cons p pre ih =>
    intro l en s hl h hf
    match l, hl with
    | some c' :: rest, hl =>
      simp only [leading_clks, List.cons_append, List.cons.injEq] at hl
      obtain ⟨rfl, hl'⟩ := hl
      have h0 : env.clk_prepare_enable s.n_clk = 0 := by simpa using h 0 (by simp)
      have hs : ∀ i, i < pre.length → env.clk_prepare_enable (s.n_clk + 1 + i) = 0 := by
        intro i hi
        have := h (i + 1) (by simpa using hi)
        rwa [show s.n_clk + 1 + i = s.n_clk + (i + 1) by omega]
      have hf' : env.clk_prepare_enable (s.n_clk + 1 + pre.length) = e := by
        rw [← hf]; congr 1; simp; omega
      have h1 : (clk_prepare_enable env c' s).1 = 0 := h0
      rw [power_on_enable_clks_cons, if_neg (by simp [h1]),
        ih rest (c' :: en) _ hl' (by simpa [clk_prepare_enable] using hs)
          (by simpa [clk_prepare_enable] using hf')]
      simp [clk_prepare_enable, h0, Nat.add_assoc, Nat.add_comm 1]

/-- Either every enable of a list of clocks succeeds or there is a first one
that fails. -/
theorem clk_enable_cases (env : Env) (cs : List clk_id) (n : Nat) :
    (∀ i, i < cs.length → env.clk_prepare_enable (n + i) = 0) ∨
    ∃ pre c post, cs = pre ++ c :: post ∧
      (∀ i, i < pre.length → env.clk_prepare_enable (n + i) = 0) ∧
      env.clk_prepare_enable (n + pre.length) ≠ 0 := by
  by_cases h : ∀ i, i < cs.length → env.clk_prepare_enable (n + i) = 0
  · exact Or.inl h
  · right
    push_neg at h
    classical
    have hex : ∃ i, i < cs.length ∧ env.clk_prepare_enable (n + i) ≠ 0 := h
    obtain ⟨m, hm, hmin⟩ : ∃ m, (m < cs.length ∧ env.clk_prepare_enable (n + m) ≠ 0) ∧
        ∀ i, i < m → env.clk_prepare_enable (n + i) = 0 := by
      refine ⟨Nat.find hex, Nat.find_spec hex, ?_⟩
      intro i hi
      by_contra hne
      exact Nat.find_min hex hi ⟨lt_trans hi (Nat.find_spec hex).1, hne⟩
    refine ⟨cs.take m, cs.get ⟨m, hm.1⟩, cs.drop (m + 1), ?_, ?_, ?_⟩
    · simp
    · intro i hi
      apply hmin
      simp at hi
      exact hi.1
    · have : (cs.take m).length = m := by simp; omega
      rw [this]; exact hm.2

theorem leading_clks_somes (cs : List clk_id) (k : Nat) :
    leading_clks (cs.map some ++ List.replicate k none) = cs := by
  induction cs with
  | nil => cases k <;> simp [leading_clks, List.replicate_succ]
  | cons c cs ih => simp [leading_clks, ih]

/-- A domain that holds the clocks `cs` followed by `NULL` entries has `cs` as
its clocks, and its rollback disables `cs` last first. -/
theorem has_clks_domain_clks {scpd : scp_domain} {cs : List clk_id}
    (h : has_clks scpd cs) : domain_clks scpd = cs := by
  unfold domain_clks; rw [h]; exact leading_clks_somes cs _

theorem has_clks_rollback_clks {scpd : scp_domain} {cs : List clk_id}
    (h : has_clks scpd cs) : rollback_clks scpd = cs.reverse := by
  unfold rollback_clks; rw [h]
  simp [List.filterMap_append, List.filterMap_replicate_of_none, List.filterMap_map]

/-! ## The status poll of `scpsys_power_on` when the domain never comes up -/

theorem is_on_snd (env : Env) (scpd : scp_domain) (s : State) :
    (scpsys_domain_is_on env scpd s).2 =
      { s with
        trace := s.trace ++ [Event.readl SPM_PWR_STATUS (env.readl_status s.n_sta % 2 ^ 32),
          Event.readl SPM_PWR_STATUS_2ND (env.readl_status_2nd s.n_sta % 2 ^ 32)]
        n_sta := s.n_sta + 1 } := by
  unfold scpsys_domain_is_on; simp only; split_ifs <;> rfl

theorem is_on_eq_one_iff (env : Env) (scpd : scp_domain) (s : State) :
    (scpsys_domain_is_on env scpd s).1 = 1 ↔
      (env.readl_status s.n_sta % 2 ^ 32 &&& scpd.sta_mask ≠ 0 ∧
        env.readl_status_2nd s.n_sta % 2 ^ 32 &&& scpd.sta_mask ≠ 0) := by
  unfold scpsys_domain_is_on; simp only
  split_ifs with h1 h2
  · exact ⟨fun _ => h1, fun _ => rfl⟩
  · exact ⟨fun h => absurd h (by simp [EINVAL]), fun h => absurd h h1⟩
  · exact ⟨fun h => absurd h (by simp [EINVAL]), fun h => absurd h h1⟩

theorem is_on_eq_zero_iff (env : Env) (scpd : scp_domain) (s : State) :
    (scpsys_domain_is_on env scpd s).1 = 0 ↔
      (env.readl_status s.n_sta % 2 ^ 32 &&& scpd.sta_mask = 0 ∧
        env.readl_status_2nd s.n_sta % 2 ^ 32 &&& scpd.sta_mask = 0) := by
  unfold scpsys_domain_is_on; simp only
  split_ifs with h1 h2
  · exact ⟨fun h => absurd h (by simp [EINVAL]), fun h => absurd h.1 h1.1⟩
  · exact ⟨fun _ => h2, fun _ => rfl⟩
  · exact ⟨fun h => absurd h (by simp [EINVAL]), fun h => absurd h h2⟩

theorem power_on_wait_pwr_ack_succ (env : Env) (scpd : scp_domain) (timeout fuel : Nat)
    (expired : Bool) (s : State) :
    power_on_wait_pwr_ack env scpd timeout (fuel + 1) expired s =
      if (scpsys_domain_is_on env scpd s).1 > 0 then Poll.done (scpsys_domain_is_on env scpd s).2
      else if expired then Poll.failed (-ETIMEDOUT) (scpsys_domain_is_on env scpd s).2
      else power_on_wait_pwr_ack env scpd timeout fuel
        (relax_and_check_time env timeout expired (scpsys_domain_is_on env scpd s).2).1
        (relax_and_check_time env timeout expired (scpsys_domain_is_on env scpd s).2).2 := rfl

/-- C3.  A domain holds the clocks `pre ++ c :: post` (at most `MAX_CLKS`).
If the enables of the clocks `pre` succeed and the enable of `c` returns
`e ≠ 0`, then `scpsys_power_on` returns `e` and its calls are exactly: the
enables of `pre` and of `c`, the disables of `pre` last first, and `dev_err`.
So no clock of `post` is touched, no clock stays enabled, no register is read
or written, and there is no bus-protection call and no callback. -/
theorem power_on_clk_enable_failure (env : Env) (scpd : scp_domain)
    (pre : List clk_id) (c : clk_id) (post : List clk_id) (e : Int) (fuel : Nat)
    (hclk : has_clks scpd (pre ++ c :: post))
    (hpre : ∀ i, i < pre.length → env.clk_prepare_enable i = 0)
    (hfail : env.clk_prepare_enable pre.length = e) (he : e ≠ 0) :
    ∃ s', scpsys_power_on env scpd fuel State.init = some (e, s') ∧
      s'.trace = pre.map (fun c => Event.clk_prepare_enable c 0) ++
        [Event.clk_prepare_enable c e] ++
        pre.reverse.map Event.clk_disable_unprepare ++ [Event.dev_err] ∧
      s'.n_ctl = 0 ∧ s'.n_sta = 0 ∧ s'.n_bus = 0 := by
  unfold scpsys_power_on
  rw [power_on_enable_clks_fail env c post e he pre _ [] State.init
    (has_clks_domain_clks hclk)
    (by simpa [State.init] using hpre) (by simpa [State.init] using hfail)]
  simp [power_on_err_clk, dev_err, State.init]

theorem status_poll_ending_of (env : Env) (scpd : scp_domain) (s0 s t : State) (j : Nat)
    (h0 : s.trace = s0.trace ++ [Event.jiffies j]) (ht : Polled s t) :
    ∃ p, (scpsys_domain_is_on env scpd t).2.trace = s0.trace ++ p ∧
      status_poll_ending p (env.readl_status t.n_sta % 2 ^ 32)
        (env.readl_status_2nd t.n_sta % 2 ^ 32) := by
  obtain ⟨q, hq, hp, _, _⟩ := ht
  refine ⟨Event.jiffies j :: (q ++ [Event.readl SPM_PWR_STATUS (env.readl_status t.n_sta % 2 ^ 32),
    Event.readl SPM_PWR_STATUS_2ND (env.readl_status_2nd t.n_sta % 2 ^ 32)]), ?_, j, q, rfl, hp⟩
  rw [is_on_snd]
  simp [hq, h0]

theorem sram_poll_ending_of (env : Env) (scpd : scp_domain) (s0 s t : State) (j : Nat)
    (h0 : s.trace = s0.trace ++ [Event.jiffies j]) (ht : Polled s t) :
    ∃ p, (readl_ctl env scpd t).2.trace = s0.trace ++ p ∧
      sram_poll_ending scpd p (readl_ctl env scpd t).1 := by
  obtain ⟨q, hq, hp, _, _⟩ := ht
  refine ⟨Event.jiffies j :: (q ++ [Event.readl scpd.ctl_addr (env.readl_ctl t.n_ctl % 2 ^ 32)]),
    ?_, j, q, rfl, hp⟩
  simp [readl_ctl, hq, h0]

/-- The part of `scpsys_power_on` that follows the enable loop, as a function
of the state the loop leaves. -/
theorem power_on_after_clks (env : Env) (scpd : scp_domain) (fuel : Nat)
    (s : State) (ret : Int) (s' : State)
    (hen : ∀ i, i < (domain_clks scpd).length → env.clk_prepare_enable (s.n_clk + i) = 0)
    (h : scpsys_power_on env scpd fuel s = some (ret, s')) :
    ∃ p1 r r2,
      status_poll_ending p1 r r2 ∧
      ((ret = -ETIMEDOUT ∧ ¬ (r &&& scpd.sta_mask ≠ 0 ∧ r2 &&& scpd.sta_mask ≠ 0) ∧
        s'.trace = s.trace ++ (domain_clks scpd).map (fun c => Event.clk_prepare_enable c 0) ++
          power_on_request scpd (env.readl_ctl s.n_ctl % 2 ^ 32) ++ p1 ++
          (rollback_clks scpd).map Event.clk_disable_unprepare ++ [Event.dev_err]) ∨
       ((r &&& scpd.sta_mask ≠ 0 ∧ r2 &&& scpd.sta_mask ≠ 0) ∧
        ∃ p2, ((scpd.sram_pdn_ack_bits = 0 ∧ ∃ j, p2 = [Event.jiffies j]) ∨
            (scpd.sram_pdn_ack_bits ≠ 0 ∧ ∃ a, sram_poll_ending scpd p2 a ∧
              ((a &&& scpd.sram_pdn_ack_bits = 0) ∨ ret = -ETIMEDOUT))) ∧
          ∃ tl, s'.trace = s.trace ++ (domain_clks scpd).map (fun c => Event.clk_prepare_enable c 0) ++
            power_on_request scpd (env.readl_ctl s.n_ctl % 2 ^ 32) ++ p1 ++
            power_on_release scpd (env.readl_ctl s.n_ctl % 2 ^ 32) ++ p2 ++ tl ∧
          ((ret = -ETIMEDOUT ∧ scpd.sram_pdn_ack_bits ≠ 0 ∧
              tl = (rollback_clks scpd).map Event.clk_disable_unprepare ++ [Event.dev_err]) ∨
           (ret ≠ 0 ∧ scpd.bus_prot_mask ≠ 0 ∧ ret = env.bus_protection s.n_bus ∧
              tl = Event.clear_bus_protection scpd.bus_prot_mask ret ::
                ((rollback_clks scpd).map Event.clk_disable_unprepare ++ [Event.dev_err])) ∨
           (ret = 0 ∧ (scpd.bus_prot_mask ≠ 0 → env.bus_protection s.n_bus = 0) ∧
              tl = (if scpd.bus_prot_mask ≠ 0
                  then [Event.clear_bus_protection scpd.bus_prot_mask 0] else []) ++
                (if scpd.power_state_cb then [Event.power_state_cb 1] else []))))) := by
  have hdc : leading_clks (List.ofFn scpd.clk) = domain_clks scpd := rfl
  have hrc : List.filterMap id (List.ofFn scpd.clk).reverse = rollback_clks scpd := rfl
  unfold scpsys_power_on at h
  rw [power_on_enable_clks_ok env _ [] s hen] at h
  simp only [hdc] at h
  split at h
  · exact absurd h (by simp)
  · -- the status poll gave up
    rename_i ret1 s1 hL1
    obtain ⟨hr, t, ht, hne, hs1⟩ := (power_on_wait_pwr_ack_spec env scpd _ fuel false _).2 _ _ hL1
    obtain ⟨p1, hp1, hend⟩ := status_poll_ending_of env scpd _ _ t _ rfl ht
    refine ⟨p1, _, _, hend, Or.inl ?_⟩
    simp only [power_on_err_pwr_ack, power_on_err_clk, Option.some.injEq, Prod.mk.injEq] at h
    rw [err_pwr_ack_disable_clks_eq, hrc] at h
    obtain ⟨h1, h2⟩ := h
    refine ⟨by rw [← h1, hr], fun hc => hne ((is_on_eq_one_iff env scpd t).2 hc), ?_⟩
    rw [← h2, hs1]
    simp only [dev_err]
    rw [hp1]
    simp [writel, readl_ctl, power_on_request, List.append_assoc]
  · -- the domain came up
    rename_i s1 hL1
    obtain ⟨t, ht, hone, hs1⟩ := (power_on_wait_pwr_ack_spec env scpd _ fuel false _).1 _ hL1
    obtain ⟨p1, hp1, hend⟩ := status_poll_ending_of env scpd _ _ t _ rfl ht
    have hbus1 : s1.n_bus = s.n_bus := by
      obtain ⟨_, _, _, _, hb⟩ := ht
      rw [hs1, is_on_snd]; simpa [read_jiffies, writel, readl_ctl] using hb
    have htr1 : s1.trace = s.trace ++ (domain_clks scpd).map (fun c => Event.clk_prepare_enable c 0) ++
        power_on_request scpd (env.readl_ctl s.n_ctl % 2 ^ 32) ++ p1 := by
      rw [hs1, hp1]; simp [writel, readl_ctl, power_on_request, List.append_assoc]
    refine ⟨p1, _, _, hend, Or.inr ⟨(is_on_eq_one_iff env scpd t).1 hone, ?_⟩⟩
    split at h
    · exact absurd h (by simp)
    · -- the SRAM poll gave up
      rename_i ret2 s2 hL2
      obtain ⟨hr, hack, u, hu, hne, hs2⟩ :=
        (power_on_wait_sram_ack_spec env scpd _ fuel false _).2 _ _ hL2
      obtain ⟨p2, hp2, hend2⟩ := sram_poll_ending_of env scpd _ _ u _ rfl hu
      simp only [power_on_err_pwr_ack, power_on_err_clk, Option.some.injEq, Prod.mk.injEq] at h
      rw [err_pwr_ack_disable_clks_eq, hrc] at h
      obtain ⟨h1, h2⟩ := h
      have hret : ret = -ETIMEDOUT := by rw [← h1, hr]
      refine ⟨p2, Or.inr ⟨hack, _, hend2, Or.inr hret⟩,
        (rollback_clks scpd).map Event.clk_disable_unprepare ++ [Event.dev_err], ?_,
        Or.inl ⟨hret, hack, rfl⟩⟩
      rw [← h2, hs2]
      simp only [dev_err]
      rw [hp2]
      simp [writel, readl_ctl, htr1, power_on_release, List.append_assoc]
    · -- the SRAM poll is over
      rename_i s2 hL2
      have hcases := (power_on_wait_sram_ack_spec env scpd _ fuel false _).1 _ hL2
      have hshape : ∃ p2, ((scpd.sram_pdn_ack_bits = 0 ∧ ∃ j, p2 = [Event.jiffies j]) ∨
            (scpd.sram_pdn_ack_bits ≠ 0 ∧ ∃ a, sram_poll_ending scpd p2 a ∧
              ((a &&& scpd.sram_pdn_ack_bits = 0) ∨ ret = -ETIMEDOUT))) ∧
          s2.trace = s.trace ++ (domain_clks scpd).map (fun c => Event.clk_prepare_enable c 0) ++
            power_on_request scpd (env.readl_ctl s.n_ctl % 2 ^ 32) ++ p1 ++
            power_on_release scpd (env.readl_ctl s.n_ctl % 2 ^ 32) ++ p2 ∧
          s2.n_bus = s.n_bus := by
        rcases hcases with ⟨hack, hs2⟩ | ⟨hack, u, hu, hz, hs2⟩
        · refine ⟨[Event.jiffies (env.jiffies s1.n_jiffies % 2 ^ env.BITS_PER_LONG)],
            Or.inl ⟨hack, _, rfl⟩, ?_, ?_⟩
          · rw [hs2]
            simp [read_jiffies, writel, readl_ctl, htr1, power_on_release, List.append_assoc]
          · rw [hs2]; simpa [read_jiffies, writel] using hbus1
        · obtain ⟨p2, hp2, hend2⟩ := sram_poll_ending_of env scpd _ _ u _ rfl hu
          refine ⟨p2, Or.inr ⟨hack, _, hend2, Or.inl hz⟩, ?_, ?_⟩
          · rw [hs2, hp2]
            simp [writel, readl_ctl, htr1, power_on_release, List.append_assoc]
          · obtain ⟨_, _, _, _, hb⟩ := hu
            rw [hs2]
            simpa [read_jiffies, writel, readl_ctl, hbus1] using hb
      obtain ⟨p2, hp2, htr2, hbus2⟩ := hshape
      refine ⟨p2, hp2, ?_⟩
      by_cases hm : scpd.bus_prot_mask = 0
      · -- no bus protection
        simp only [hm, ne_eq, not_true_eq_false, ↓reduceIte, Option.some.injEq,
          Prod.mk.injEq] at h
        obtain ⟨h1, h2⟩ := h
        refine ⟨_, ?_, Or.inr (Or.inr ⟨h1.symm, fun hc => absurd hm hc, rfl⟩)⟩
        rw [← h2]
        by_cases hcb : scpd.power_state_cb = true
        · simp [hcb, hm, power_state_cb, htr2]
        · simp [hcb, hm, htr2]
      · simp only [hm, ne_eq, not_false_eq_true, ↓reduceIte,
          mtk_infracfg_clear_bus_protection] at h
        by_cases hb : env.bus_protection s2.n_bus = 0
        · simp only [hb, not_true_eq_false, ↓reduceIte, Option.some.injEq,
            Prod.mk.injEq] at h
          obtain ⟨h1, h2⟩ := h
          refine ⟨_, ?_, Or.inr (Or.inr ⟨h1.symm, fun _ => by rw [← hbus2]; exact hb, rfl⟩)⟩
          rw [← h2]
          by_cases hcb : scpd.power_state_cb = true
          · simp [hcb, hm, power_state_cb, htr2]
          · simp [hcb, hm, htr2]
        · simp only [hb, not_false_eq_true, ↓reduceIte, power_on_err_pwr_ack,
            power_on_err_clk, Option.some.injEq, Prod.mk.injEq] at h
          rw [err_pwr_ack_disable_clks_eq, hrc] at h
          obtain ⟨h1, h2⟩ := h
          refine ⟨_, ?_, Or.inr (Or.inl ⟨by rw [← h1]; exact hb, hm,
            by rw [← h1, hbus2], rfl⟩)⟩
          rw [← h2]
          simp [dev_err, htr2, ← h1]

/-! ## Every way `scpsys_power_off` can return -/

theorem power_off_cases (env : Env) (scpd : scp_domain) (fuel : Nat)
    (s : State) (ret : Int) (s' : State)
    (h : scpsys_power_off env scpd fuel s = some (ret, s')) :
    (scpd.bus_prot_mask ≠ 0 ∧ ret ≠ 0 ∧ ret = env.bus_protection s.n_bus ∧
      s'.trace = s.trace ++ (if scpd.power_state_cb then [Event.power_state_cb 0] else []) ++
        [Event.set_bus_protection scpd.bus_prot_mask ret, Event.dev_err]) ∨
    ((scpd.bus_prot_mask ≠ 0 → env.bus_protection s.n_bus = 0) ∧
      ∃ p1, ((scpd.sram_pdn_ack_bits = 0 ∧ ∃ j, p1 = [Event.jiffies j]) ∨
          (scpd.sram_pdn_ack_bits ≠ 0 ∧ ∃ a, sram_poll_ending scpd p1 a ∧
            ((a &&& scpd.sram_pdn_ack_bits = scpd.sram_pdn_ack_bits) ∨ ret = -ETIMEDOUT))) ∧
        ((ret = -ETIMEDOUT ∧ scpd.sram_pdn_ack_bits ≠ 0 ∧
          s'.trace = s.trace ++ power_off_prologue scpd ++
            power_off_request scpd (env.readl_ctl s.n_ctl % 2 ^ 32) ++ p1 ++ [Event.dev_err]) ∨
         ∃ p2 r r2, status_poll_ending p2 r r2 ∧
          ((ret = -ETIMEDOUT ∧ ¬ (r &&& scpd.sta_mask = 0 ∧ r2 &&& scpd.sta_mask = 0) ∧
            s'.trace = s.trace ++ power_off_prologue scpd ++
              power_off_request scpd (env.readl_ctl s.n_ctl % 2 ^ 32) ++ p1 ++
              power_off_isolate scpd (env.readl_ctl s.n_ctl % 2 ^ 32) ++ p2 ++
              [Event.dev_err]) ∨
           (ret = 0 ∧ (r &&& scpd.sta_mask = 0 ∧ r2 &&& scpd.sta_mask = 0) ∧
            s'.trace = s.trace ++ power_off_prologue scpd ++
              power_off_request scpd (env.readl_ctl s.n_ctl % 2 ^ 32) ++ p1 ++
              power_off_isolate scpd (env.readl_ctl s.n_ctl % 2 ^ 32) ++ p2 ++
              (domain_clks scpd).map Event.clk_disable_unprepare)))) := by
  unfold scpsys_power_off at h
  simp only at h
  -- the state and the return code after the callback and the bus-protection call
  generalize hb : (if scpd.bus_prot_mask ≠ 0 then
      mtk_infracfg_set_bus_protection env scpd.bus_prot_mask
        (if scpd.power_state_cb = true then power_state_cb 0 s else s)
    else (0, if scpd.power_state_cb = true then power_state_cb 0 s else s)) = b at h
  by_cases hfail : b.1 ≠ 0
  · -- the bus-protection call failed
    left
    simp only [hfail, ne_eq, not_false_eq_true, ↓reduceIte, power_off_out,
      Option.some.injEq, Prod.mk.injEq] at h
    obtain ⟨h1, h2⟩ := h
    by_cases hm : scpd.bus_prot_mask = 0
    · simp only [hm, ne_eq, not_true_eq_false, ↓reduceIte] at hb
      rw [← hb] at hfail
      exact absurd rfl hfail
    · simp only [hm, ne_eq, not_false_eq_true, ↓reduceIte,
        mtk_infracfg_set_bus_protection] at hb
      refine ⟨hm, by rw [← h1]; exact hfail, ?_, ?_⟩
      · rw [← h1, ← hb]
        by_cases hcb : scpd.power_state_cb = true <;> simp [hcb, power_state_cb]
      · rw [← h2, ← h1, ← hb]
        by_cases hcb : scpd.power_state_cb = true <;> simp [hcb, power_state_cb, dev_err]
  · right
    have hz : b.1 = 0 := not_not.1 hfail
    have hbtr : b.2.trace = s.trace ++ power_off_prologue scpd ∧ b.2.n_ctl = s.n_ctl ∧
        (scpd.bus_prot_mask ≠ 0 → env.bus_protection s.n_bus = 0) := by
      by_cases hm : scpd.bus_prot_mask = 0
      · simp only [hm, ne_eq, not_true_eq_false, ↓reduceIte] at hb
        rw [← hb]
        by_cases hcb : scpd.power_state_cb = true <;>
          simp [hcb, hm, power_state_cb, power_off_prologue]
      · simp only [hm, ne_eq, not_false_eq_true, ↓reduceIte,
          mtk_infracfg_set_bus_protection] at hb
        have hz' : env.bus_protection s.n_bus = 0 := by
          rw [← hb] at hz
          by_cases hcb : scpd.power_state_cb = true <;>
            simpa [hcb, power_state_cb] using hz
        rw [← hb]
        by_cases hcb : scpd.power_state_cb = true <;>
          simp [hcb, hm, power_state_cb, power_off_prologue, hz']
    obtain ⟨hbt, hbc, hbz⟩ := hbtr
    refine ⟨hbz, ?_⟩
    simp only [hz, ne_eq, not_true_eq_false, ↓reduceIte] at h
    split at h
    · exact absurd h (by simp)
    · -- the SRAM poll gave up
      rename_i ret1 s1 hL1
      obtain ⟨hr, hack, u, hu, hne, hs1⟩ :=
        (power_off_wait_sram_ack_spec env scpd _ fuel false _).2 _ _ hL1
      obtain ⟨p1, hp1, hend1⟩ := sram_poll_ending_of env scpd _ _ u _ rfl hu
      simp only [power_off_out, Option.some.injEq, Prod.mk.injEq] at h
      obtain ⟨h1, h2⟩ := h
      have hret : ret = -ETIMEDOUT := by rw [← h1, hr]
      refine ⟨p1, Or.inr ⟨hack, _, hend1, Or.inr hret⟩, Or.inl ⟨hret, hack, ?_⟩⟩
      rw [← h2, hs1]
      simp only [dev_err]
      rw [hp1]
      simp [writel, readl_ctl, hbt, hbc, power_off_request, List.append_assoc]
    · -- the SRAM poll is over
      rename_i s1 hL1
      have hcases := (power_off_wait_sram_ack_spec env scpd _ fuel false _).1 _ hL1
      have hshape : ∃ p1, ((scpd.sram_pdn_ack_bits = 0 ∧ ∃ j, p1 = [Event.jiffies j]) ∨
            (scpd.sram_pdn_ack_bits ≠ 0 ∧ ∃ a, sram_poll_ending scpd p1 a ∧
              ((a &&& scpd.sram_pdn_ack_bits = scpd.sram_pdn_ack_bits) ∨
                ret = -ETIMEDOUT))) ∧
          s1.trace = s.trace ++ power_off_prologue scpd ++
            power_off_request scpd (env.readl_ctl s.n_ctl % 2 ^ 32) ++ p1 := by
        rcases hcases with ⟨hack, hs1⟩ | ⟨hack, u, hu, hz1, hs1⟩
        · refine ⟨[Event.jiffies (env.jiffies b.2.n_jiffies % 2 ^ env.BITS_PER_LONG)],
            Or.inl ⟨hack, _, rfl⟩, ?_⟩
          rw [hs1]
          simp [read_jiffies, writel, readl_ctl, hbt, hbc, power_off_request,
            List.append_assoc]
        · obtain ⟨p1, hp1, hend1⟩ := sram_poll_ending_of env scpd _ _ u _ rfl hu
          refine ⟨p1, Or.inr ⟨hack, _, hend1, Or.inl hz1⟩, ?_⟩
          rw [hs1, hp1]
          simp [writel, readl_ctl, hbt, hbc, power_off_request, List.append_assoc]
      obtain ⟨p1, hp1, htr1⟩ := hshape
      refine ⟨p1, hp1, Or.inr ?_⟩
      split at h
      · exact absurd h (by simp)
      · -- the status poll gave up
        rename_i ret2 s2 hL2
        obtain ⟨hr, t, ht, hne, hs2⟩ :=
          (power_off_wait_pwr_ack_spec env scpd _ fuel false _).2 _ _ hL2
        obtain ⟨p2, hp2, hend2⟩ := status_poll_ending_of env scpd _ _ t _ rfl ht
        simp only [power_off_out, Option.some.injEq, Prod.mk.injEq] at h
        obtain ⟨h1, h2⟩ := h
        refine ⟨p2, _, _, hend2, Or.inl ⟨by rw [← h1, hr],
          fun hc => hne ((is_on_eq_zero_iff env scpd t).2 hc), ?_⟩⟩
        rw [← h2, hs2]
        simp only [dev_err]
        rw [hp2]
        simp [writel, readl_ctl, hbc, htr1, power_off_isolate, List.append_assoc]
      · -- the domain went down
        rename_i s2 hL2
        obtain ⟨t, ht, hzero, hs2⟩ :=
          (power_off_wait_pwr_ack_spec env scpd _ fuel false _).1 _ hL2
        obtain ⟨p2, hp2, hend2⟩ := status_poll_ending_of env scpd _ _ t _ rfl ht
        simp only [Option.some.injEq, Prod.mk.injEq] at h
        obtain ⟨h1, h2⟩ := h
        refine ⟨p2, _, _, hend2, Or.inr ⟨h1.symm, (is_on_eq_zero_iff env scpd t).1 hzero, ?_⟩⟩
        rw [← h2, power_off_disable_clks_eq, show leading_clks (List.ofFn scpd.clk) = domain_clks scpd from rfl, hs2]
        simp only
        rw [hp2]
        simp [writel, readl_ctl, hbc, htr1, power_off_isolate, List.append_assoc]

/-! ## The bound on the polling rounds

Once an operation returns within some bound on the number of polling rounds,
it returns the same with any larger bound. -/

theorem power_off_wait_pwr_ack_succ (env : Env) (scpd : scp_domain) (timeout fuel : Nat)
    (expired : Bool) (s : State) :
    power_off_wait_pwr_ack env scpd timeout (fuel + 1) expired s =
      if (scpsys_domain_is_on env scpd s).1 = 0 then Poll.done (scpsys_domain_is_on env scpd s).2
      else if expired then Poll.failed (-ETIMEDOUT) (scpsys_domain_is_on env scpd s).2
      else power_off_wait_pwr_ack env scpd timeout fuel
        (relax_and_check_time env timeout expired (scpsys_domain_is_on env scpd s).2).1
        (relax_and_check_time env timeout expired (scpsys_domain_is_on env scpd s).2).2 := rfl

theorem power_on_wait_pwr_ack_mono (env : Env) (scpd : scp_domain) (timeout : Nat) :
    ∀ (fuel : Nat) (expired : Bool) (s : State),
      power_on_wait_pwr_ack env scpd timeout fuel expired s ≠ Poll.spinning →
      ∀ k, power_on_wait_pwr_ack env scpd timeout (fuel + k) expired s =
        power_on_wait_pwr_ack env scpd timeout fuel expired s := by
  intro fuel
  induction fuel with
  | zero => intro expired s h; exact absurd rfl h
  | succ n ih =>
    intro expired s h k
    rw [show n + 1 + k = (n + k) + 1 by omega, power_on_wait_pwr_ack_succ,
      power_on_wait_pwr_ack_succ]
    rw [power_on_wait_pwr_ack_succ] at h
    split_ifs with h1 h2
    · rfl
    · rfl
    · rw [if_neg h1, if_neg h2] at h
      exact ih _ _ h k

theorem power_off_wait_pwr_ack_mono (env : Env) (scpd : scp_domain) (timeout : Nat) :
    ∀ (fuel : Nat) (expired : Bool) (s : State),
      power_off_wait_pwr_ack env scpd timeout fuel expired s ≠ Poll.spinning →
      ∀ k, power_off_wait_pwr_ack env scpd timeout (fuel + k) expired s =
        power_off_wait_pwr_ack env scpd timeout fuel expired s := by
  intro fuel
  induction fuel with
  | zero => intro expired s h; exact absurd rfl h
  | succ n ih =>
    intro expired s h k
    rw [show n + 1 + k = (n + k) + 1 by omega, power_off_wait_pwr_ack_succ,
      power_off_wait_pwr_ack_succ]
    rw [power_off_wait_pwr_ack_succ] at h
    split_ifs with h1 h2
    · rfl
    · rfl
    · rw [if_neg h1, if_neg h2] at h
      exact ih _ _ h k

theorem power_on_wait_sram_ack_succ (env : Env) (scpd : scp_domain) (timeout fuel : Nat)
    (expired : Bool) (s : State) :
    power_on_wait_sram_ack env scpd timeout (fuel + 1) expired s =
      if scpd.sram_pdn_ack_bits = 0 then Poll.done s
      else if (readl_ctl env scpd s).1 &&& scpd.sram_pdn_ack_bits = 0
        then Poll.done (readl_ctl env scpd s).2
      else if expired then Poll.failed (-ETIMEDOUT) (readl_ctl env scpd s).2
      else power_on_wait_sram_ack env scpd timeout fuel
        (relax_and_check_time env timeout expired (readl_ctl env scpd s).2).1
        (relax_and_check_time env timeout expired (readl_ctl env scpd s).2).2 := rfl

theorem power_off_wait_sram_ack_succ (env : Env) (scpd : scp_domain) (timeout fuel : Nat)
    (expired : Bool) (s : State) :
    power_off_wait_sram_ack env scpd timeout (fuel + 1) expired s =
      if scpd.sram_pdn_ack_bits = 0 then Poll.done s
      else if (readl_ctl env scpd s).1 &&& scpd.sram_pdn_ack_bits = scpd.sram_pdn_ack_bits
        then Poll.done (readl_ctl env scpd s).2
      else if expired then Poll.failed (-ETIMEDOUT) (readl_ctl env scpd s).2
      else power_off_wait_sram_ack env scpd timeout fuel
        (relax_and_check_time env timeout expired (readl_ctl env scpd s).2).1
        (relax_and_check_time env timeout expired (readl_ctl env scpd s).2).2 := rfl

theorem power_on_wait_sram_ack_mono (env : Env) (scpd : scp_domain) (timeout : Nat) :
    ∀ (fuel : Nat) (expired : Bool) (s : State),
      power_on_wait_sram_ack env scpd timeout fuel expired s ≠ Poll.spinning →
      ∀ k, power_on_wait_sram_ack env scpd timeout (fuel + k) expired s =
        power_on_wait_sram_ack env scpd timeout fuel expired s := by
  intro fuel
  induction fuel with
  | zero => intro expired s h; exact absurd rfl h
  | succ n ih =>
    intro expired s h k
    rw [show n + 1 + k = (n + k) + 1 by omega, power_on_wait_sram_ack_succ,
      power_on_wait_sram_ack_succ]
    rw [power_on_wait_sram_ack_succ] at h
    split_ifs with h0 h1 h2
    · rfl
    · rfl
    · rfl
    · rw [if_neg h0, if_neg h1, if_neg h2] at h
      exact ih _ _ h k

theorem power_off_wait_sram_ack_mono (env : Env) (scpd : scp_domain) (timeout : Nat) :
    ∀ (fuel : Nat) (expired : Bool) (s : State),
      power_off_wait_sram_ack env scpd timeout fuel expired s ≠ Poll.spinning →
      ∀ k, power_off_wait_sram_ack env scpd timeout (fuel + k) expired s =
        power_off_wait_sram_ack env scpd timeout fuel expired s := by
  intro fuel
  induction fuel with
  | zero => intro expired s h; exact absurd rfl h
  | succ n ih =>
    intro expired s h k
    rw [show n + 1 + k = (n + k) + 1 by omega, power_off_wait_sram_ack_succ,
      power_off_wait_sram_ack_succ]
    rw [power_off_wait_sram_ack_succ] at h
    split_ifs with h0 h1 h2
    · rfl
    · rfl
    · rfl
    · rw [if_neg h0, if_neg h1, if_neg h2] at h
      exact ih _ _ h k

/-- A result of `scpsys_power_on` does not depend on the bound, once the bound
is large enough for the operation to return. -/
theorem scpsys_power_on_mono (env : Env) (scpd : scp_domain) (fuel k : Nat) (s : State)
    (r : Int × State) (h : scpsys_power_on env scpd fuel s = some r) :
    scpsys_power_on env scpd (fuel + k) s = some r := by
  unfold scpsys_power_on at h ⊢
  cases hc : power_on_enable_clks env (List.ofFn scpd.clk) [] s with
  | error e => rw [hc] at h; exact h
  | ok sA =>
    rw [hc] at h
    simp only at h ⊢
    have n1 : power_on_wait_pwr_ack env scpd
        (((read_jiffies env (writel ((readl_ctl env scpd sA).1 ||| PWR_ON_BIT ||| PWR_ON_2ND_BIT)
          scpd.ctl_addr (writel ((readl_ctl env scpd sA).1 ||| PWR_ON_BIT) scpd.ctl_addr
            (readl_ctl env scpd sA).2))).1 + env.HZ) % 2 ^ env.BITS_PER_LONG) fuel false
        (read_jiffies env (writel ((readl_ctl env scpd sA).1 ||| PWR_ON_BIT ||| PWR_ON_2ND_BIT)
          scpd.ctl_addr (writel ((readl_ctl env scpd sA).1 ||| PWR_ON_BIT) scpd.ctl_addr
            (readl_ctl env scpd sA).2))).2 ≠ Poll.spinning := by
      intro hs; rw [hs] at h; exact absurd h (by simp)
    rw [power_on_wait_pwr_ack_mono env scpd _ fuel false _ n1 k]
    split at h
    · exact absurd h (by simp)
    · exact h
    · split at h
      · exact absurd h (by simp)
      · rename_i hL2
        rw [power_on_wait_sram_ack_mono env scpd _ fuel false _ (by rw [hL2]; simp) k, hL2]
        exact h
      · rename_i hL2
        rw [power_on_wait_sram_ack_mono env scpd _ fuel false _ (by rw [hL2]; simp) k, hL2]
        exact h

/-- A result of `scpsys_power_off` does not depend on the bound, once the bound
is large enough for the operation to return. -/
theorem scpsys_power_off_mono (env : Env) (scpd : scp_domain) (fuel k : Nat) (s : State)
    (r : Int × State) (h : scpsys_power_off env scpd fuel s = some r) :
    scpsys_power_off env scpd (fuel + k) s = some r := by
  unfold scpsys_power_off at h ⊢
  simp only at h ⊢
  generalize (if scpd.bus_prot_mask ≠ 0 then
      mtk_infracfg_set_bus_protection env scpd.bus_prot_mask
        (if scpd.power_state_cb = true then power_state_cb 0 s else s)
    else (0, if scpd.power_state_cb = true then power_state_cb 0 s else s)) = b at h ⊢
  by_cases hb : b.1 ≠ 0
  · rw [if_pos hb] at h ⊢
    exact h
  · rw [if_neg hb] at h ⊢
    split at h
    · exact absurd h (by simp)
    · rename_i hL1
      rw [power_off_wait_sram_ack_mono env scpd _ fuel false _ (by rw [hL1]; simp) k, hL1]
      exact h
    · rename_i hL1
      rw [power_off_wait_sram_ack_mono env scpd _ fuel false _ (by rw [hL1]; simp) k, hL1]
      split at h
      · exact absurd h (by simp)
      · rename_i hL2
        rw [power_off_wait_pwr_ack_mono env scpd _ fuel false _ (by rw [hL2]; simp) k, hL2]
        exact h
      · rename_i hL2
        rw [power_off_wait_pwr_ack_mono env scpd _ fuel false _ (by rw [hL2]; simp) k, hL2]
        exact h

/-! ## Every poll is bounded by its timeout -/

theorem relax_n_jiffies (env : Env) (timeout : Nat) (expired : Bool) (s : State) :
    (relax_and_check_time env timeout expired s).2.n_jiffies = s.n_jiffies + 1 ∧
    (time_after env (env.jiffies s.n_jiffies % 2 ^ env.BITS_PER_LONG) timeout = true →
      (relax_and_check_time env timeout expired s).1 = true) := by
  constructor
  · rfl
  · intro h
    simp [relax_and_check_time, read_jiffies, cpu_relax, h]

theorem power_on_wait_pwr_ack_ends (env : Env) (scpd : scp_domain) (timeout : Nat) :
    ∀ (n fuel : Nat) (expired : Bool) (s : State), n + 2 ≤ fuel →
      time_after env (env.jiffies (s.n_jiffies + n) % 2 ^ env.BITS_PER_LONG) timeout = true →
      power_on_wait_pwr_ack env scpd timeout fuel expired s ≠ Poll.spinning := by
  intro n
  induction n with
  | zero =>
    intro fuel expired s hf ht
    obtain ⟨g, rfl⟩ : ∃ g, fuel = g + 1 + 1 := ⟨fuel - 2, by omega⟩
    rw [power_on_wait_pwr_ack_succ]
    split_ifs with h1 h2
    · simp
    · simp
    · rw [(relax_n_jiffies env timeout expired _).2 (by rw [is_on_snd]; exact ht),
        power_on_wait_pwr_ack_succ]
      split_ifs <;> simp_all
  | succ m ih =>
    intro fuel expired s hf ht
    obtain ⟨g, rfl⟩ : ∃ g, fuel = g + 1 := ⟨fuel - 1, by omega⟩
    rw [power_on_wait_pwr_ack_succ]
    split_ifs with h1 h2
    · simp
    · simp
    · apply ih g _ _ (by omega)
      rw [(relax_n_jiffies env timeout expired _).1, is_on_snd]
      rw [show s.n_jiffies + 1 + m = s.n_jiffies + (m + 1) by omega]
      exact ht

theorem power_off_wait_pwr_ack_ends (env : Env) (scpd : scp_domain) (timeout : Nat) :
    ∀ (n fuel : Nat) (expired : Bool) (s : State), n + 2 ≤ fuel →
      time_after env (env.jiffies (s.n_jiffies + n) % 2 ^ env.BITS_PER_LONG) timeout = true →
      power_off_wait_pwr_ack env scpd timeout fuel expired s ≠ Poll.spinning := by
  intro n
  induction n with
  | zero =>
    intro fuel expired s hf ht
    obtain ⟨g, rfl⟩ : ∃ g, fuel = g + 1 + 1 := ⟨fuel - 2, by omega⟩
    rw [power_off_wait_pwr_ack_succ]
    split_ifs with h1 h2
    · simp
    · simp
    · rw [(relax_n_jiffies env timeout expired _).2 (by rw [is_on_snd]; exact ht),
        power_off_wait_pwr_ack_succ]
      split_ifs <;> simp_all
  | succ m ih =>
    intro fuel expired s hf ht
    obtain ⟨g, rfl⟩ : ∃ g, fuel = g + 1 := ⟨fuel - 1, by omega⟩
    rw [power_off_wait_pwr_ack_succ]
    split_ifs with h1 h2
    · simp
    · simp
    · apply ih g _ _ (by omega)
      rw [(relax_n_jiffies env timeout expired _).1, is_on_snd]
      rw [show s.n_jiffies + 1 + m = s.n_jiffies + (m + 1) by omega]
      exact ht

theorem power_on_wait_sram_ack_ends (env : Env) (scpd : scp_domain) (timeout : Nat) :
    ∀ (n fuel : Nat) (expired : Bool) (s : State), n + 2 ≤ fuel →
      time_after env (env.jiffies (s.n_jiffies + n) % 2 ^ env.BITS_PER_LONG) timeout = true →
      power_on_wait_sram_ack env scpd timeout fuel expired s ≠ Poll.spinning := by
  intro n
  induction n with
  | zero =>
    intro fuel expired s hf ht
    obtain ⟨g, rfl⟩ : ∃ g, fuel = g + 1 + 1 := ⟨fuel - 2, by omega⟩
    rw [power_on_wait_sram_ack_succ]
    split_ifs with h0 h1 h2
    · simp
    · simp
    · simp
    · rw [(relax_n_jiffies env timeout expired _).2 (by exact ht),
        power_on_wait_sram_ack_succ]
      split_ifs <;> simp_all
  | succ m ih =>
    intro fuel expired s hf ht
    obtain ⟨g, rfl⟩ : ∃ g, fuel = g + 1 := ⟨fuel - 1, by omega⟩
    rw [power_on_wait_sram_ack_succ]
    split_ifs with h0 h1 h2
    · simp
    · simp
    · simp
    · apply ih g _ _ (by omega)
      rw [(relax_n_jiffies env timeout expired _).1]
      rw [show (readl_ctl env scpd s).2.n_jiffies + 1 + m = s.n_jiffies + (m + 1) by
        simp [readl_ctl]; omega]
      exact ht

theorem power_off_wait_sram_ack_ends (env : Env) (scpd : scp_domain) (timeout : Nat) :
    ∀ (n fuel : Nat) (expired : Bool) (s : State), n + 2 ≤ fuel →
      time_after env (env.jiffies (s.n_jiffies + n) % 2 ^ env.BITS_PER_LONG) timeout = true →
      power_off_wait_sram_ack env scpd timeout fuel expired s ≠ Poll.spinning := by
  intro n
  induction n with
  | zero =>
    intro fuel expired s hf ht
    obtain ⟨g, rfl⟩ : ∃ g, fuel = g + 1 + 1 := ⟨fuel - 2, by omega⟩
    rw [power_off_wait_sram_ack_succ]
    split_ifs with h0 h1 h2
    · simp
    · simp
    · simp
    · rw [(relax_n_jiffies env timeout expired _).2 (by exact ht),
        power_off_wait_sram_ack_succ]
      split_ifs <;> simp_all
  | succ m ih =>
    intro fuel expired s hf ht
    obtain ⟨g, rfl⟩ : ∃ g, fuel = g + 1 := ⟨fuel - 1, by omega⟩
    rw [power_off_wait_sram_ack_succ]
    split_ifs with h0 h1 h2
    · simp
    · simp
    · simp
    · apply ih g _ _ (by omega)
      rw [(relax_n_jiffies env timeout expired _).1]
      rw [show (readl_ctl env scpd s).2.n_jiffies + 1 + m = s.n_jiffies + (m + 1) by
        simp [readl_ctl]; omega]
      exact ht

/-- While time goes on, `scpsys_power_on` returns: there is a bound on the
polling rounds from which on it yields one and the same result. -/
theorem scpsys_power_on_returns (env : Env) (scpd : scp_domain) (s : State)
    (h : ticks_advance env) :
    ∃ fuel r, ∀ k, scpsys_power_on env scpd (fuel + k) s = some r := by
  have key : ∃ fuel, scpsys_power_on env scpd fuel s ≠ none := by
    cases hc : power_on_enable_clks env (List.ofFn scpd.clk) [] s with
    | error e =>
      refine ⟨0, ?_⟩
      unfold scpsys_power_on
      rw [hc]
      simp
    | ok sA =>
      obtain ⟨n1, hn1⟩ := h ((readl_ctl env scpd sA).2.n_jiffies + 1)
        ((env.jiffies sA.n_jiffies % 2 ^ env.BITS_PER_LONG + env.HZ) % 2 ^ env.BITS_PER_LONG)
      have ne1 := power_on_wait_pwr_ack_ends env scpd
        ((env.jiffies sA.n_jiffies % 2 ^ env.BITS_PER_LONG + env.HZ) % 2 ^ env.BITS_PER_LONG)
        n1 (n1 + 2) false
        (read_jiffies env (writel ((readl_ctl env scpd sA).1 ||| PWR_ON_BIT ||| PWR_ON_2ND_BIT)
          scpd.ctl_addr (writel ((readl_ctl env scpd sA).1 ||| PWR_ON_BIT) scpd.ctl_addr
            (readl_ctl env scpd sA).2))).2 (le_refl _) hn1
      cases hL1 : power_on_wait_pwr_ack env scpd
        ((env.jiffies sA.n_jiffies % 2 ^ env.BITS_PER_LONG + env.HZ) % 2 ^ env.BITS_PER_LONG)
        (n1 + 2) false
        (read_jiffies env (writel ((readl_ctl env scpd sA).1 ||| PWR_ON_BIT ||| PWR_ON_2ND_BIT)
          scpd.ctl_addr (writel ((readl_ctl env scpd sA).1 ||| PWR_ON_BIT) scpd.ctl_addr
            (readl_ctl env scpd sA).2))).2 with
      | spinning => exact absurd hL1 ne1
      | failed ret s1 =>
        refine ⟨n1 + 2, ?_⟩
        unfold scpsys_power_on
        rw [hc]
        simp only
        erw [hL1]
        simp
      | done s1 =>
        obtain ⟨n2, hn2⟩ := h (s1.n_jiffies + 1)
          ((env.jiffies s1.n_jiffies % 2 ^ env.BITS_PER_LONG + env.HZ) %
            2 ^ env.BITS_PER_LONG)
        refine ⟨n1 + 2 + (n2 + 2), ?_⟩
        unfold scpsys_power_on
        rw [hc]
        simp only
        erw [power_on_wait_pwr_ack_mono env scpd _ (n1 + 2) false _ ne1 (n2 + 2), hL1]
        simp only
        split
        · rename_i hL2
          exact absurd hL2 (power_on_wait_sram_ack_ends env scpd _ n2 _ false _
            (by omega) hn2)
        · simp
        · split_ifs <;> simp
  obtain ⟨fuel, hne⟩ := key
  obtain ⟨r, hr⟩ := Option.ne_none_iff_exists'.1 hne
  exact ⟨fuel, r, fun k => scpsys_power_on_mono env scpd fuel k s r hr⟩

/-- While time goes on, `scpsys_power_off` returns: there is a bound on the
polling rounds from which on it yields one and the same result. -/
theorem scpsys_power_off_returns (env : Env) (scpd : scp_domain) (s : State)
    (h : ticks_advance env) :
    ∃ fuel r, ∀ k, scpsys_power_off env scpd (fuel + k) s = some r := by
  have key : ∃ fuel, scpsys_power_off env scpd fuel s ≠ none := by
    unfold scpsys_power_off
    simp only
    generalize (if scpd.bus_prot_mask ≠ 0 then
        mtk_infracfg_set_bus_protection env scpd.bus_prot_mask
          (if scpd.power_state_cb = true then power_state_cb 0 s else s)
      else (0, if scpd.power_state_cb = true then power_state_cb 0 s else s)) = b
    by_cases hb : b.1 ≠ 0
    · refine ⟨0, ?_⟩
      rw [if_pos hb]
      simp
    · obtain ⟨n1, hn1⟩ := h (b.2.n_jiffies + 1)
        ((env.jiffies b.2.n_jiffies % 2 ^ env.BITS_PER_LONG + env.HZ) %
          2 ^ env.BITS_PER_LONG)
      have ne1 := power_off_wait_sram_ack_ends env scpd
        ((env.jiffies b.2.n_jiffies % 2 ^ env.BITS_PER_LONG + env.HZ) %
          2 ^ env.BITS_PER_LONG)
        n1 (n1 + 2) false
        (read_jiffies env (writel ((readl_ctl env scpd b.2).1 ||| scpd.sram_pdn_bits)
          scpd.ctl_addr (readl_ctl env scpd b.2).2)).2 (le_refl _) hn1
      cases hL1 : power_off_wait_sram_ack env scpd
        ((env.jiffies b.2.n_jiffies % 2 ^ env.BITS_PER_LONG + env.HZ) %
          2 ^ env.BITS_PER_LONG)
        (n1 + 2) false
        (read_jiffies env (writel ((readl_ctl env scpd b.2).1 ||| scpd.sram_pdn_bits)
          scpd.ctl_addr (readl_ctl env scpd b.2).2)).2 with
      | spinning => exact absurd hL1 ne1
      | failed ret s1 =>
        refine ⟨n1 + 2, ?_⟩
        rw [if_neg hb]
        erw [hL1]
        simp
      | done s1 =>
        obtain ⟨n2, hn2⟩ := h (s1.n_jiffies + 1)
          ((env.jiffies s1.n_jiffies % 2 ^ env.BITS_PER_LONG + env.HZ) %
            2 ^ env.BITS_PER_LONG)
        refine ⟨n1 + 2 + (n2 + 2), ?_⟩
        rw [if_neg hb]
        erw [power_off_wait_sram_ack_mono env scpd _ (n1 + 2) false _ ne1 (n2 + 2), hL1]
        simp only
        split
        · rename_i hL2
          exact absurd hL2 (power_off_wait_pwr_ack_ends env scpd _ n2 _ false _
            (by omega) hn2)
        · simp
        · simp
  obtain ⟨fuel, hne⟩ := key
  obtain ⟨r, hr⟩ := Option.ne_none_iff_exists'.1 hne
  exact ⟨fuel, r, fun k => scpsys_power_off_mono env scpd fuel k s r hr⟩

/-! ## Projections of traces -/

theorem writels_append (a b : List Event) : writels (a ++ b) = writels a ++ writels b := by
  simp [writels, List.filterMap_append]

theorem clk_calls_append (a b : List Event) : clk_calls (a ++ b) = clk_calls a ++ clk_calls b := by
  simp [clk_calls, List.filter_append]

theorem writels_of_poll (q : List Event) (h : ∀ e ∈ q, e.is_poll = true) : writels q = [] := by
  induction q with
  | nil => rfl
  | cons e q ih =>
    have he := h e (by simp)
    have hq := ih (fun e' h' => h e' (by simp [h']))
    cases e <;> simp_all [writels, Event.is_poll]

theorem clk_calls_of_poll (q : List Event) (h : ∀ e ∈ q, e.is_poll = true) :
    clk_calls q = [] := by
  induction q with
  | nil => rfl
  | cons e q ih =>
    have he := h e (by simp)
    have hq := ih (fun e' h' => h e' (by simp [h']))
    cases e <;> simp_all [clk_calls, Event.is_poll, Event.is_clk]

theorem writels_enables (cs : List clk_id) :
    writels (cs.map (fun c => Event.clk_prepare_enable c 0)) = [] := by
  induction cs with
  | nil => rfl
  | cons c cs ih => simp [writels]

theorem writels_disables (cs : List clk_id) :
    writels (cs.map Event.clk_disable_unprepare) = [] := by
  induction cs with
  | nil => rfl
  | cons c cs ih => simp [writels]

theorem clk_calls_enables (cs : List clk_id) :
    clk_calls (cs.map (fun c => Event.clk_prepare_enable c 0)) =
      cs.map (fun c => Event.clk_prepare_enable c 0) := by
  induction cs with
  | nil => rfl
  | cons c cs ih => simp [clk_calls, Event.is_clk]

theorem clk_calls_disables (cs : List clk_id) :
    clk_calls (cs.map Event.clk_disable_unprepare) = cs.map Event.clk_disable_unprepare := by
  induction cs with
  | nil => rfl
  | cons c cs ih => simp [clk_calls, Event.is_clk]

theorem status_poll_ending_poll {p : List Event} {r r2 : Nat}
    (h : status_poll_ending p r r2) : ∀ e ∈ p, e.is_poll = true := by
  obtain ⟨j, q, rfl, hq⟩ := h
  intro e he
  simp only [List.mem_cons, List.mem_append, List.not_mem_nil, or_false] at he
  rcases he with rfl | he | rfl | rfl
  · rfl
  · exact hq e he
  · rfl
  · rfl

theorem sram_poll_ending_poll {scpd : scp_domain} {p : List Event} {a : Nat}
    (h : sram_poll_ending scpd p a) : ∀ e ∈ p, e.is_poll = true := by
  obtain ⟨j, q, rfl, hq⟩ := h
  intro e he
  simp only [List.mem_cons, List.mem_append, List.not_mem_nil, or_false] at he
  rcases he with rfl | he | rfl
  · rfl
  · exact hq e he
  · rfl

/-! ## Bits of register values -/

theorem testBit_not32 (m i : Nat) :
    (not32 m).testBit i = (decide (i < 32) ^^ m.testBit i) := by
  unfold not32
  rw [Nat.testBit_xor, show (0xFFFFFFFF : Nat) = 2 ^ 32 - 1 by norm_num,
    Nat.testBit_two_pow_sub_one]

theorem testBit_BIT (k i : Nat) : (BIT k).testBit i = decide (k = i) := by
  unfold BIT; exact Nat.testBit_two_pow

theorem testBit_u32 (v i : Nat) (hv : v < 2 ^ 32) (hi : 32 ≤ i) : v.testBit i = false :=
  Nat.testBit_lt_two_pow (lt_of_lt_of_le hv (Nat.pow_le_pow_right (by decide) hi))

/-- Clearing the bits `m` of a 32-bit value with `& ~m`. -/
theorem testBit_and_not32 (v m i : Nat) (hv : v < 2 ^ 32) :
    (v &&& not32 m).testBit i = (v.testBit i && !m.testBit i) := by
  rw [Nat.testBit_and, testBit_not32]
  by_cases hi : i < 32
  · simp [hi]
  · rw [testBit_u32 v i hv (by omega)]; simp

theorem and_BIT_ne_zero_iff (r k : Nat) : r &&& BIT k ≠ 0 ↔ r.testBit k = true := by
  constructor
  · intro h
    by_contra hk
    apply h
    apply Nat.eq_of_testBit_eq
    intro i
    rw [Nat.testBit_and, testBit_BIT, Nat.zero_testBit]
    by_cases hi : k = i
    · subst hi; simp [hk]
    · simp [hi]
  · intro h hz
    have := congrArg (fun x => x.testBit k) hz
    simp [Nat.testBit_and, testBit_BIT, h] at this

theorem and_BIT_eq_zero_iff (r k : Nat) : r &&& BIT k = 0 ↔ r.testBit k = false := by
  have := and_BIT_ne_zero_iff r k
  constructor
  · intro h
    by_contra hk
    exact (this.2 (by simpa using hk)) h
  · intro h
    by_contra hk
    rw [this.1 hk] at h
    exact absurd h (by decide)

theorem unchanged_outside_refl (sram v : Nat) : unchanged_outside sram v v :=
  fun _ _ _ => rfl

theorem unchanged_outside_or_bit {sram v w : Nat} (k : Nat) (hk : k ≤ 4)
    (h : unchanged_outside sram v w) : unchanged_outside sram v (w ||| BIT k) := by
  intro i hi hs
  rw [Nat.testBit_or, testBit_BIT, h i hi hs]
  have : ¬ k = i := by omega
  simp [this]

theorem unchanged_outside_or_sram {sram v w : Nat}
    (h : unchanged_outside sram v w) : unchanged_outside sram v (w ||| sram) := by
  intro i hi hs
  rw [Nat.testBit_or, hs, h i hi hs]
  simp

theorem unchanged_outside_clear_bit {sram v w : Nat} (k : Nat) (hk : k ≤ 4) (hv : v < 2 ^ 32)
    (h : unchanged_outside sram v w) : unchanged_outside sram v (w &&& not32 (BIT k)) := by
  intro i hi hs
  rw [Nat.testBit_and, testBit_not32, testBit_BIT, h i hi hs]
  have : ¬ k = i := by omega
  by_cases h32 : i < 32
  · simp [this, h32]
  · rw [testBit_u32 v i hv (by omega)]; simp

theorem unchanged_outside_clear_sram {sram v w : Nat} (hv : v < 2 ^ 32)
    (h : unchanged_outside sram v w) : unchanged_outside sram v (w &&& not32 sram) := by
  intro i hi hs
  rw [Nat.testBit_and, testBit_not32, hs, h i hi hs]
  by_cases h32 : i < 32
  · simp [h32]
  · rw [testBit_u32 v i hv (by omega)]; simp

/-- Powering on and then off takes a register value with the powered-off
pattern back to itself. -/
theorem power_on_off_value (v0 S : Nat) (hv : v0 < 2 ^ 32)
    (h0 : v0.testBit 0 = false) (h1 : v0.testBit 1 = true) (h2 : v0.testBit 2 = false)
    (h3 : v0.testBit 3 = false) (h4 : v0.testBit 4 = true) (hS : v0 &&& S = S) :
    ((((((v0 ||| BIT 2 ||| BIT 3) &&& not32 (BIT 4) &&& not32 (BIT 1) ||| BIT 0) &&& not32 S
      ||| S ||| BIT 1) &&& not32 (BIT 0) ||| BIT 4) &&& not32 (BIT 2)) &&& not32 (BIT 3))
      = v0 := by
  apply Nat.eq_of_testBit_eq
  intro i
  have hSi : S.testBit i = true → v0.testBit i = true := by
    intro h
    have := congrArg (fun x => x.testBit i) hS
    simp only [Nat.testBit_and, h, Bool.and_true] at this
    exact this
  have hhi : 32 ≤ i → v0.testBit i = false := testBit_u32 v0 i hv
  simp only [Nat.testBit_and, Nat.testBit_or, testBit_not32, testBit_BIT]
  by_cases e0 : i = 0
  · subst e0; simp [h0]
  by_cases e1 : i = 1
  · subst e1; simp [h1]
  by_cases e2 : i = 2
  · subst e2; simp [h2]
  by_cases e3 : i = 3
  · subst e3; simp [h3]
  by_cases e4 : i = 4
  · subst e4; simp [h4]
  have n0 : ¬ 0 = i := fun h => e0 h.symm
  have n1 : ¬ 1 = i := fun h => e1 h.symm
  have n2 : ¬ 2 = i := fun h => e2 h.symm
  have n3 : ¬ 3 = i := fun h => e3 h.symm
  have n4 : ¬ 4 = i := fun h => e4 h.symm
  simp only [n0, n1, n2, n3, n4, decide_False, Bool.or_false, Bool.xor_false, Bool.and_true]
  by_cases hi : i < 32
  · cases hs : S.testBit i <;> cases hv' : v0.testBit i <;> simp_all
  · have := hhi (by omega)
    cases hs : S.testBit i <;> simp_all

/-! ## `scpsys_power_on`: the write sequence -/

/-- The function `scpsys_power_on` either stops at a clock that does not enable or gets all
its clocks. -/
theorem power_on_clk_cases (env : Env) (scpd : scp_domain) (fuel : Nat) (s : State)
    (ret : Int) (s' : State) (h : scpsys_power_on env scpd fuel s = some (ret, s')) :
    (∃ pre c post, domain_clks scpd = pre ++ c :: post ∧ ret ≠ 0 ∧
      ret = env.clk_prepare_enable (s.n_clk + pre.length) ∧
      s'.trace = s.trace ++ pre.map (fun c => Event.clk_prepare_enable c 0) ++
        [Event.clk_prepare_enable c ret] ++
        pre.reverse.map Event.clk_disable_unprepare ++ [Event.dev_err]) ∨
    (∀ i, i < (domain_clks scpd).length → env.clk_prepare_enable (s.n_clk + i) = 0) := by
  rcases clk_enable_cases env (domain_clks scpd) s.n_clk with hall | ⟨pre, c, post, hd, hpre, hne⟩
  · exact Or.inr hall
  · left
    unfold scpsys_power_on at h
    rw [power_on_enable_clks_fail env c post _ hne pre _ [] s hd hpre rfl] at h
    simp only [power_on_err_clk, dev_err, Option.some.injEq, Prod.mk.injEq] at h
    obtain ⟨h1, h2⟩ := h
    refine ⟨pre, c, post, hd, by rw [← h1]; exact hne, h1.symm, ?_⟩
    rw [← h2, ← h1]
    simp

/-- C1.  A successful `scpsys_power_on` of any domain, with `v0` the value
found by its first read of the control register: the trace consists of the
clock enables, the read that yields `v0`, the write of `v0 | BIT(2)`, the write
of `v0 | BIT(2) | BIT(3)`, polling events, the four writes that clear `BIT(4)`,
clear `BIT(1)`, set `BIT(0)` and clear `sram_pdn_bits` (each from the value
written before), polling events again, and last the bus-protection call and
the callback, if any.  So exactly six values are written, all to the control
register, and each is a function of `v0` and the domain alone. -/
theorem power_on_write_sequence (env : Env) (scpd : scp_domain) (fuel : Nat) (s' : State)
    (v0 : Nat) (hv0 : env.readl_ctl 0 % 2 ^ 32 = v0)
    (h : scpsys_power_on env scpd fuel State.init = some (0, s')) :
    ∃ p1 p2 tl,
      s'.trace = (domain_clks scpd).map (fun c => Event.clk_prepare_enable c 0) ++
        [Event.readl scpd.ctl_addr v0,
         Event.writel (v0 ||| BIT 2) scpd.ctl_addr,
         Event.writel (v0 ||| BIT 2 ||| BIT 3) scpd.ctl_addr] ++ p1 ++
        [Event.writel ((v0 ||| BIT 2 ||| BIT 3) &&& not32 (BIT 4)) scpd.ctl_addr,
         Event.writel ((v0 ||| BIT 2 ||| BIT 3) &&& not32 (BIT 4) &&& not32 (BIT 1))
           scpd.ctl_addr,
         Event.writel ((v0 ||| BIT 2 ||| BIT 3) &&& not32 (BIT 4) &&& not32 (BIT 1) ||| BIT 0)
           scpd.ctl_addr,
         Event.writel (((v0 ||| BIT 2 ||| BIT 3) &&& not32 (BIT 4) &&& not32 (BIT 1) ||| BIT 0)
           &&& not32 scpd.sram_pdn_bits) scpd.ctl_addr] ++ p2 ++ tl ∧
      (∀ e ∈ p1, e.is_poll = true) ∧ (∀ e ∈ p2, e.is_poll = true) ∧
      (∀ e ∈ tl, e = Event.clear_bus_protection scpd.bus_prot_mask 0 ∨
        e = Event.power_state_cb 1) ∧
      writels s'.trace =
        [(v0 ||| BIT 2, scpd.ctl_addr),
         (v0 ||| BIT 2 ||| BIT 3, scpd.ctl_addr),
         ((v0 ||| BIT 2 ||| BIT 3) &&& not32 (BIT 4), scpd.ctl_addr),
         ((v0 ||| BIT 2 ||| BIT 3) &&& not32 (BIT 4) &&& not32 (BIT 1), scpd.ctl_addr),
         ((v0 ||| BIT 2 ||| BIT 3) &&& not32 (BIT 4) &&& not32 (BIT 1) ||| BIT 0,
           scpd.ctl_addr),
         (((v0 ||| BIT 2 ||| BIT 3) &&& not32 (BIT 4) &&& not32 (BIT 1) ||| BIT 0)
           &&& not32 scpd.sram_pdn_bits, scpd.ctl_addr)] := by
  subst hv0
  have hT : (-ETIMEDOUT : Int) ≠ 0 := by decide
  rcases power_on_clk_cases env scpd fuel _ _ _ h with ⟨_, _, _, _, hne, _⟩ | hen
  · exact absurd rfl hne
  obtain ⟨p1, r, r2, hp1, hcase⟩ := power_on_after_clks env scpd fuel _ _ _ hen h
  rcases hcase with ⟨hret, _⟩ | ⟨_, p2, hp2, tl, htr, htl⟩
  · exact absurd hret.symm hT
  have hpoll1 := status_poll_ending_poll hp1
  have hpoll2 : ∀ e ∈ p2, e.is_poll = true := by
    rcases hp2 with ⟨_, j, rfl⟩ | ⟨_, a, ha, _⟩
    · intro e he; simp at he; subst he; rfl
    · exact sram_poll_ending_poll ha
  rcases htl with ⟨hret, _⟩ | ⟨hne, _⟩ | ⟨_, _, htl⟩
  · exact absurd hret.symm hT
  · exact absurd rfl hne
  have htl' : ∀ e ∈ tl, e = Event.clear_bus_protection scpd.bus_prot_mask 0 ∨
      e = Event.power_state_cb 1 := by
    intro e he
    rw [htl] at he
    rcases List.mem_append.1 he with h1 | h1
    · split_ifs at h1 <;> simp at h1; exact Or.inl h1
    · split_ifs at h1 <;> simp at h1; exact Or.inr h1
  have hwtl : writels tl = [] := by
    rw [htl]
    by_cases hm : scpd.bus_prot_mask = 0 <;> by_cases hcb : scpd.power_state_cb = true <;>
      simp [hm, hcb, writels]
  have htr' : s'.trace = (domain_clks scpd).map (fun c => Event.clk_prepare_enable c 0) ++
      power_on_request scpd (env.readl_ctl 0 % 2 ^ 32) ++ p1 ++
      power_on_release scpd (env.readl_ctl 0 % 2 ^ 32) ++ p2 ++ tl := by
    simpa [State.init] using htr
  refine ⟨p1, p2, tl, htr', hpoll1, hpoll2, htl', ?_⟩
  rw [htr']
  simp only [writels_append, writels_enables, writels_of_poll p1 hpoll1,
    writels_of_poll p2 hpoll2, hwtl, List.nil_append, List.append_nil]
  rfl

/-! ## `scpsys_power_off`: the write sequence and the clocks -/

theorem power_off_prologue_no_writes (scpd : scp_domain) :
    writels (power_off_prologue scpd) = [] ∧ clk_calls (power_off_prologue scpd) = [] := by
  unfold power_off_prologue
  by_cases hm : scpd.bus_prot_mask = 0 <;> by_cases hcb : scpd.power_state_cb = true <;>
    simp [hm, hcb, writels, clk_calls, Event.is_clk]

/-- The trace of a successful `scpsys_power_off`. -/
theorem power_off_success (env : Env) (scpd : scp_domain) (fuel : Nat) (s s' : State)
    (h : scpsys_power_off env scpd fuel s = some (0, s')) :
    ∃ p1 p2 r r2, (∀ e ∈ p1, e.is_poll = true) ∧ status_poll_ending p2 r r2 ∧
      (r &&& scpd.sta_mask = 0 ∧ r2 &&& scpd.sta_mask = 0) ∧
      s'.trace = s.trace ++ power_off_prologue scpd ++
        power_off_request scpd (env.readl_ctl s.n_ctl % 2 ^ 32) ++ p1 ++
        power_off_isolate scpd (env.readl_ctl s.n_ctl % 2 ^ 32) ++ p2 ++
        (domain_clks scpd).map Event.clk_disable_unprepare := by
  have hT : (-ETIMEDOUT : Int) ≠ 0 := by decide
  rcases power_off_cases env scpd fuel s 0 s' h with ⟨_, hne, _⟩ | ⟨_, p1, hp1, hcase⟩
  · exact absurd rfl hne
  have hpoll1 : ∀ e ∈ p1, e.is_poll = true := by
    rcases hp1 with ⟨_, j, rfl⟩ | ⟨_, a, ha, _⟩
    · intro e he; simp at he; subst he; rfl
    · exact sram_poll_ending_poll ha
  rcases hcase with ⟨hret, _⟩ | ⟨p2, r, r2, hp2, hcase⟩
  · exact absurd hret.symm hT
  rcases hcase with ⟨hret, _⟩ | ⟨_, hoff, htr⟩
  · exact absurd hret.symm hT
  exact ⟨p1, p2, r, r2, hpoll1, hp2, hoff, htr⟩

/-- C2, as the code has it.  A successful `scpsys_power_off` of any domain,
with `v0` the value found by its read of the control register, writes six
values, all to the control register: `v0 | sram_pdn_bits`; then, after the
SRAM poll, five more, each from the value written before: set `BIT(1)`, clear
`BIT(0)`, set `BIT(4)`, clear `BIT(2)`, and in a write of its own clear
`BIT(3)`. -/
theorem power_off_write_sequence (env : Env) (scpd : scp_domain) (fuel : Nat) (s' : State)
    (v0 : Nat) (hv0 : env.readl_ctl 0 % 2 ^ 32 = v0)
    (h : scpsys_power_off env scpd fuel State.init = some (0, s')) :
    ∃ p1 p2,
      s'.trace = power_off_prologue scpd ++
        [Event.readl scpd.ctl_addr v0,
         Event.writel (v0 ||| scpd.sram_pdn_bits) scpd.ctl_addr] ++ p1 ++
        [Event.writel (v0 ||| scpd.sram_pdn_bits ||| BIT 1) scpd.ctl_addr,
         Event.writel ((v0 ||| scpd.sram_pdn_bits ||| BIT 1) &&& not32 (BIT 0)) scpd.ctl_addr,
         Event.writel ((v0 ||| scpd.sram_pdn_bits ||| BIT 1) &&& not32 (BIT 0) ||| BIT 4)
           scpd.ctl_addr,
         Event.writel (((v0 ||| scpd.sram_pdn_bits ||| BIT 1) &&& not32 (BIT 0) ||| BIT 4)
           &&& not32 (BIT 2)) scpd.ctl_addr,
         Event.writel (((v0 ||| scpd.sram_pdn_bits ||| BIT 1) &&& not32 (BIT 0) ||| BIT 4)
           &&& not32 (BIT 2) &&& not32 (BIT 3)) scpd.ctl_addr] ++ p2 ++
        (domain_clks scpd).map Event.clk_disable_unprepare ∧
      (∀ e ∈ p1, e.is_poll = true) ∧ (∀ e ∈ p2, e.is_poll = true) ∧
      writels s'.trace =
        [(v0 ||| scpd.sram_pdn_bits, scpd.ctl_addr),
         (v0 ||| scpd.sram_pdn_bits ||| BIT 1, scpd.ctl_addr),
         ((v0 ||| scpd.sram_pdn_bits ||| BIT 1) &&& not32 (BIT 0), scpd.ctl_addr),
         ((v0 ||| scpd.sram_pdn_bits ||| BIT 1) &&& not32 (BIT 0) ||| BIT 4, scpd.ctl_addr),
         (((v0 ||| scpd.sram_pdn_bits ||| BIT 1) &&& not32 (BIT 0) ||| BIT 4)
           &&& not32 (BIT 2), scpd.ctl_addr),
         (((v0 ||| scpd.sram_pdn_bits ||| BIT 1) &&& not32 (BIT 0) ||| BIT 4)
           &&& not32 (BIT 2) &&& not32 (BIT 3), scpd.ctl_addr)] := by
  subst hv0
  obtain ⟨p1, p2, r, r2, hpoll1, hp2, _, htr⟩ := power_off_success env scpd fuel _ _ h
  have hpoll2 := status_poll_ending_poll hp2
  have htr' : s'.trace = power_off_prologue scpd ++
      power_off_request scpd (env.readl_ctl 0 % 2 ^ 32) ++ p1 ++
      power_off_isolate scpd (env.readl_ctl 0 % 2 ^ 32) ++ p2 ++
      (domain_clks scpd).map Event.clk_disable_unprepare := by
    simpa [State.init] using htr
  refine ⟨p1, p2, htr', hpoll1, hpoll2, ?_⟩
  rw [htr']
  simp only [writels_append, writels_disables, writels_of_poll p1 hpoll1,
    writels_of_poll p2 hpoll2, (power_off_prologue_no_writes scpd).1, List.nil_append,
    List.append_nil]
  rfl

/-- C10, as the code has it.  A domain holds the clocks `cs`.  A successful
`scpsys_power_off` ends with the status check that found the bit of the domain
clear in both status registers, followed by the disables of `cs` in declared order,
the first clock first; these are the only clock calls of the operation, which
then returns 0. -/
theorem power_off_disables_clks (env : Env) (scpd : scp_domain) (cs : List clk_id)
    (fuel : Nat) (s' : State) (hclk : has_clks scpd cs)
    (h : scpsys_power_off env scpd fuel State.init = some (0, s')) :
    ∃ before r r2,
      s'.trace = before ++
        [Event.readl SPM_PWR_STATUS r, Event.readl SPM_PWR_STATUS_2ND r2] ++
        cs.map Event.clk_disable_unprepare ∧
      r &&& scpd.sta_mask = 0 ∧ r2 &&& scpd.sta_mask = 0 ∧
      clk_calls before = [] ∧
      clk_calls s'.trace = cs.map Event.clk_disable_unprepare := by
  obtain ⟨p1, p2, r, r2, hpoll1, hp2, hoff, htr⟩ := power_off_success env scpd fuel _ _ h
  rw [has_clks_domain_clks hclk] at htr
  obtain ⟨j, q, rfl, hq⟩ := hp2
  have hb : clk_calls (power_off_prologue scpd ++
      power_off_request scpd (env.readl_ctl State.init.n_ctl % 2 ^ 32) ++ p1 ++
      power_off_isolate scpd (env.readl_ctl State.init.n_ctl % 2 ^ 32) ++
      (Event.jiffies j :: q)) = [] := by
    simp only [clk_calls_append, (power_off_prologue_no_writes scpd).2,
      clk_calls_of_poll p1 hpoll1, List.nil_append, List.append_nil]
    have : clk_calls (Event.jiffies j :: q) = [] :=
      clk_calls_of_poll _ (by
        intro e he
        rcases List.mem_cons.1 he with rfl | he
        · rfl
        · exact hq e he)
    rw [this]
    rfl
  refine ⟨_, r, r2, ?_, hoff.1, hoff.2, hb, ?_⟩
  · rw [htr]; simp [State.init]
  · have : s'.trace = (power_off_prologue scpd ++
        power_off_request scpd (env.readl_ctl State.init.n_ctl % 2 ^ 32) ++ p1 ++
        power_off_isolate scpd (env.readl_ctl State.init.n_ctl % 2 ^ 32) ++
        (Event.jiffies j :: q)) ++
        [Event.readl SPM_PWR_STATUS r, Event.readl SPM_PWR_STATUS_2ND r2] ++
        cs.map Event.clk_disable_unprepare := by
      rw [htr]; simp [State.init]
    rw [this, clk_calls_append, clk_calls_append, hb, clk_calls_disables]
    rfl

/-! ## Status disagreement and bus-protection failure -/

theorem is_on_eq_einval_iff (env : Env) (scpd : scp_domain) (s : State) :
    (scpsys_domain_is_on env scpd s).1 = -EINVAL ↔
      ((env.readl_status s.n_sta % 2 ^ 32 &&& scpd.sta_mask ≠ 0 ∧
          env.readl_status_2nd s.n_sta % 2 ^ 32 &&& scpd.sta_mask = 0) ∨
        (env.readl_status s.n_sta % 2 ^ 32 &&& scpd.sta_mask = 0 ∧
          env.readl_status_2nd s.n_sta % 2 ^ 32 &&& scpd.sta_mask ≠ 0)) := by
  have h1 := is_on_eq_one_iff env scpd s
  have h0 := is_on_eq_zero_iff env scpd s
  rcases is_on_values env scpd s with h | h | h
  · rw [h]
    have := h1.1 h
    constructor
    · intro hc; exact absurd hc (by decide)
    · rintro (⟨_, hz⟩ | ⟨hz, _⟩)
      · exact absurd hz this.2
      · exact absurd hz this.1
  · rw [h]
    have := h0.1 h
    constructor
    · intro hc; exact absurd hc (by decide)
    · rintro (⟨hz, _⟩ | ⟨_, hz⟩)
      · exact absurd this.1 hz
      · exact absurd this.2 hz
  · have n1 : ¬ (scpsys_domain_is_on env scpd s).1 = 1 := by rw [h]; decide
    have n0 : ¬ (scpsys_domain_is_on env scpd s).1 = 0 := by rw [h]; decide
    have a1 := mt h1.2 n1
    have a0 := mt h0.2 n0
    constructor
    · intro _
      by_cases hs : env.readl_status s.n_sta % 2 ^ 32 &&& scpd.sta_mask = 0
      · right
        exact ⟨hs, fun h2 => a0 ⟨hs, h2⟩⟩
      · left
        exact ⟨hs, by_contra fun h2 => a1 ⟨hs, h2⟩⟩
    · intro _; exact h

theorem not_mem_of_poll {p : List Event} {e : Event} (hp : ∀ x ∈ p, x.is_poll = true)
    (he : e.is_poll = false) : e ∉ p := by
  intro hmem
  have := hp e hmem
  rw [he] at this
  exact absurd this (by decide)

/-- C5.  `scpsys_domain_is_on` returns 1 exactly when both masked status
values are non-zero, 0 exactly when both are zero and `-EINVAL` exactly when
one is zero and the other is not.  The status poll of `scpsys_power_on` ends
successfully at a check exactly when the check returns 1, that of
`scpsys_power_off` exactly when it returns 0; after any other check, `-EINVAL`
included, the poll fails with `-ETIMEDOUT` if the time is up and otherwise
goes on.  A status poll fails with `-ETIMEDOUT` only, and a value returned by
`scpsys_power_on` or `scpsys_power_off` is 0, `-ETIMEDOUT`, or an error code
that a clock enable or the bus-protection call handed in. -/
theorem status_disagreement_only_continues (env : Env) (scpd : scp_domain) :
    (∀ s : State,
      ((scpsys_domain_is_on env scpd s).1 = 1 ↔
        (env.readl_status s.n_sta % 2 ^ 32 &&& scpd.sta_mask ≠ 0 ∧
          env.readl_status_2nd s.n_sta % 2 ^ 32 &&& scpd.sta_mask ≠ 0)) ∧
      ((scpsys_domain_is_on env scpd s).1 = 0 ↔
        (env.readl_status s.n_sta % 2 ^ 32 &&& scpd.sta_mask = 0 ∧
          env.readl_status_2nd s.n_sta % 2 ^ 32 &&& scpd.sta_mask = 0)) ∧
      ((scpsys_domain_is_on env scpd s).1 = -EINVAL ↔
        ((env.readl_status s.n_sta % 2 ^ 32 &&& scpd.sta_mask ≠ 0 ∧
            env.readl_status_2nd s.n_sta % 2 ^ 32 &&& scpd.sta_mask = 0) ∨
          (env.readl_status s.n_sta % 2 ^ 32 &&& scpd.sta_mask = 0 ∧
            env.readl_status_2nd s.n_sta % 2 ^ 32 &&& scpd.sta_mask ≠ 0)))) ∧
    (∀ (timeout fuel : Nat) (expired : Bool) (s : State),
      power_on_wait_pwr_ack env scpd timeout (fuel + 1) expired s =
        if (scpsys_domain_is_on env scpd s).1 = 1
        then Poll.done (scpsys_domain_is_on env scpd s).2
        else if expired then Poll.failed (-ETIMEDOUT) (scpsys_domain_is_on env scpd s).2
        else power_on_wait_pwr_ack env scpd timeout fuel
          (relax_and_check_time env timeout expired (scpsys_domain_is_on env scpd s).2).1
          (relax_and_check_time env timeout expired (scpsys_domain_is_on env scpd s).2).2) ∧
    (∀ (timeout fuel : Nat) (expired : Bool) (s : State),
      power_off_wait_pwr_ack env scpd timeout (fuel + 1) expired s =
        if (scpsys_domain_is_on env scpd s).1 = 0
        then Poll.done (scpsys_domain_is_on env scpd s).2
        else if expired then Poll.failed (-ETIMEDOUT) (scpsys_domain_is_on env scpd s).2
        else power_off_wait_pwr_ack env scpd timeout fuel
          (relax_and_check_time env timeout expired (scpsys_domain_is_on env scpd s).2).1
          (relax_and_check_time env timeout expired (scpsys_domain_is_on env scpd s).2).2) ∧
    (∀ (timeout fuel : Nat) (expired : Bool) (s : State) (ret : Int) (s' : State),
      (power_on_wait_pwr_ack env scpd timeout fuel expired s = Poll.failed ret s' ∨
        power_off_wait_pwr_ack env scpd timeout fuel expired s = Poll.failed ret s') →
      ret = -ETIMEDOUT) ∧
    (∀ (fuel : Nat) (s : State) (ret : Int) (s' : State),
      scpsys_power_on env scpd fuel s = some (ret, s') →
      ret = 0 ∨ ret = -ETIMEDOUT ∨
        (ret ≠ 0 ∧ ∃ c, Event.clk_prepare_enable c ret ∈ s'.trace) ∨
        (ret ≠ 0 ∧ Event.clear_bus_protection scpd.bus_prot_mask ret ∈ s'.trace)) ∧
    (∀ (fuel : Nat) (s : State) (ret : Int) (s' : State),
      scpsys_power_off env scpd fuel s = some (ret, s') →
      ret = 0 ∨ ret = -ETIMEDOUT ∨
        (ret ≠ 0 ∧ Event.set_bus_protection scpd.bus_prot_mask ret ∈ s'.trace)) := by
  refine ⟨fun s => ⟨is_on_eq_one_iff env scpd s, is_on_eq_zero_iff env scpd s,
    is_on_eq_einval_iff env scpd s⟩, ?_, ?_, ?_, ?_, ?_⟩
  · intro timeout fuel expired s
    rw [power_on_wait_pwr_ack_succ]
    by_cases h : (scpsys_domain_is_on env scpd s).1 = 1
    · rw [if_pos ((is_on_pos_iff env scpd s).2 h), if_pos h]
    · rw [if_neg (fun hc => h ((is_on_pos_iff env scpd s).1 hc)), if_neg h]
  · intro timeout fuel expired s
    exact power_off_wait_pwr_ack_succ env scpd timeout fuel expired s
  · intro timeout fuel expired s ret s' h
    rcases h with h | h
    · exact ((power_on_wait_pwr_ack_spec env scpd timeout fuel expired s).2 ret s' h).1
    · exact ((power_off_wait_pwr_ack_spec env scpd timeout fuel expired s).2 ret s' h).1
  · intro fuel s ret s' h
    rcases power_on_clk_cases env scpd fuel _ _ _ h with ⟨pre, c, post, _, hne, _, htr⟩ | hen
    · right; right; left
      exact ⟨hne, c, by rw [htr]; simp⟩
    obtain ⟨p1, r, r2, _, hcase⟩ := power_on_after_clks env scpd fuel _ _ _ hen h
    rcases hcase with ⟨hret, _⟩ | ⟨_, p2, _, tl, htr, htl⟩
    · exact Or.inr (Or.inl hret)
    rcases htl with ⟨hret, _⟩ | ⟨hne, _, _, htl⟩ | ⟨hret, _⟩
    · exact Or.inr (Or.inl hret)
    · right; right; right
      exact ⟨hne, by rw [htr, htl]; simp⟩
    · exact Or.inl hret
  · intro fuel s ret s' h
    rcases power_off_cases env scpd fuel s ret s' h with ⟨_, hne, _, htr⟩ | ⟨_, p1, _, hcase⟩
    · right; right
      exact ⟨hne, by rw [htr]; simp⟩
    rcases hcase with ⟨hret, _⟩ | ⟨p2, r, r2, _, hcase⟩
    · exact Or.inr (Or.inl hret)
    rcases hcase with ⟨hret, _⟩ | ⟨hret, _⟩
    · exact Or.inr (Or.inl hret)
    · exact Or.inl hret

/-- What `scpsys_power_off` does when the bus-protection call fails. -/
theorem power_off_bus_failure (env : Env) (scpd : scp_domain) (fuel : Nat) (e : Int)
    (hm : scpd.bus_prot_mask ≠ 0) (he : e ≠ 0) (hbus : env.bus_protection 0 = e) :
    ∃ s', scpsys_power_off env scpd fuel State.init = some (e, s') ∧
      s'.trace = (if scpd.power_state_cb then [Event.power_state_cb 0] else []) ++
        [Event.set_bus_protection scpd.bus_prot_mask e, Event.dev_err] := by
  unfold scpsys_power_off
  by_cases hcb : scpd.power_state_cb = true
  · simp [hcb, hm, mtk_infracfg_set_bus_protection, power_state_cb, State.init, hbus, he,
      power_off_out, dev_err]
  · simp [hcb, hm, mtk_infracfg_set_bus_protection, State.init, hbus, he,
      power_off_out, dev_err]

/-- C6, as the code has it.  A domain holds the clocks `cs` and has a non-zero
bus-protection mask; the bus-protection call returns `e ≠ 0`.  Then
`scpsys_power_off` returns `e` after the callback, if any, the failed call and
`dev_err`: no register is read or written and no clock is touched.
`scpsys_power_on` returns `e` as well and disables, last first, the clocks it
enabled, but only after its six writes to the control register, which are not
taken back: the last value written is the powered-on value, not the value read
at the start. -/
theorem bus_protection_failure (env : Env) (scpd : scp_domain) (cs : List clk_id)
    (fuel : Nat) (e : Int) (hclk : has_clks scpd cs) (hm : scpd.bus_prot_mask ≠ 0)
    (he : e ≠ 0) :
    (env.bus_protection 0 = e →
      ∃ s', scpsys_power_off env scpd fuel State.init = some (e, s') ∧
        s'.trace = (if scpd.power_state_cb then [Event.power_state_cb 0] else []) ++
          [Event.set_bus_protection scpd.bus_prot_mask e, Event.dev_err]) ∧
    (∀ (ret : Int) (s' : State) (v0 : Nat), env.readl_ctl 0 % 2 ^ 32 = v0 →
      scpsys_power_on env scpd fuel State.init = some (ret, s') →
      Event.clear_bus_protection scpd.bus_prot_mask e ∈ s'.trace →
      ret = e ∧
      ∃ p1 p2, (∀ x ∈ p1, x.is_poll = true) ∧ (∀ x ∈ p2, x.is_poll = true) ∧
        s'.trace = cs.map (fun c => Event.clk_prepare_enable c 0) ++
          [Event.readl scpd.ctl_addr v0,
           Event.writel (v0 ||| BIT 2) scpd.ctl_addr,
           Event.writel (v0 ||| BIT 2 ||| BIT 3) scpd.ctl_addr] ++ p1 ++
          [Event.writel ((v0 ||| BIT 2 ||| BIT 3) &&& not32 (BIT 4)) scpd.ctl_addr,
           Event.writel ((v0 ||| BIT 2 ||| BIT 3) &&& not32 (BIT 4) &&& not32 (BIT 1))
             scpd.ctl_addr,
           Event.writel ((v0 ||| BIT 2 ||| BIT 3) &&& not32 (BIT 4) &&& not32 (BIT 1)
             ||| BIT 0) scpd.ctl_addr,
           Event.writel (((v0 ||| BIT 2 ||| BIT 3) &&& not32 (BIT 4) &&& not32 (BIT 1)
             ||| BIT 0) &&& not32 scpd.sram_pdn_bits) scpd.ctl_addr] ++ p2 ++
          [Event.clear_bus_protection scpd.bus_prot_mask e] ++
          cs.reverse.map Event.clk_disable_unprepare ++ [Event.dev_err] ∧
        clk_calls s'.trace = cs.map (fun c => Event.clk_prepare_enable c 0) ++
          cs.reverse.map Event.clk_disable_unprepare ∧
        (writels s'.trace).getLast? =
          some (((v0 ||| BIT 2 ||| BIT 3) &&& not32 (BIT 4) &&& not32 (BIT 1) ||| BIT 0)
            &&& not32 scpd.sram_pdn_bits, scpd.ctl_addr)) := by
  refine ⟨power_off_bus_failure env scpd fuel e hm he, ?_⟩
  intro ret s' v0 hv0 h hmem
  subst hv0
  have hd := has_clks_domain_clks hclk
  have hr := has_clks_rollback_clks hclk
  have hnp : (Event.clear_bus_protection scpd.bus_prot_mask e).is_poll = false := rfl
  rcases power_on_clk_cases env scpd fuel _ _ _ h with ⟨pre, c, post, _, _, _, htr⟩ | hen
  · rw [htr] at hmem
    simp [State.init] at hmem
  obtain ⟨p1, r, r2, hp1, hcase⟩ := power_on_after_clks env scpd fuel _ _ _ hen h
  have hpoll1 := status_poll_ending_poll hp1
  rcases hcase with ⟨_, _, htr⟩ | ⟨_, p2, hp2, tl, htr, htl⟩
  · rw [htr] at hmem
    simp [State.init, power_on_request, not_mem_of_poll hpoll1 hnp] at hmem
  have hpoll2 : ∀ x ∈ p2, x.is_poll = true := by
    rcases hp2 with ⟨_, j, rfl⟩ | ⟨_, a, ha, _⟩
    · intro x hx; simp at hx; subst hx; rfl
    · exact sram_poll_ending_poll ha
  rw [hd] at htr
  simp only [hr] at htl
  rcases htl with ⟨_, _, htl⟩ | ⟨_, _, _, htl⟩ | ⟨_, _, htl⟩
  · rw [htr, htl] at hmem
    simp [State.init, power_on_request, power_on_release, not_mem_of_poll hpoll1 hnp,
      not_mem_of_poll hpoll2 hnp] at hmem
  · rw [htr, htl] at hmem
    have hret : ret = e := by
      simpa [State.init, power_on_request, power_on_release, not_mem_of_poll hpoll1 hnp,
        not_mem_of_poll hpoll2 hnp, eq_comm] using hmem
    subst hret
    have htr' : s'.trace = cs.map (fun c => Event.clk_prepare_enable c 0) ++
        power_on_request scpd (env.readl_ctl 0 % 2 ^ 32) ++ p1 ++
        power_on_release scpd (env.readl_ctl 0 % 2 ^ 32) ++ p2 ++
        [Event.clear_bus_protection scpd.bus_prot_mask ret] ++
        cs.reverse.map Event.clk_disable_unprepare ++ [Event.dev_err] := by
      rw [htr, htl]; simp [State.init]
    refine ⟨rfl, p1, p2, hpoll1, hpoll2, htr', ?_, ?_⟩
    · rw [htr']
      simp only [clk_calls_append, clk_calls_enables, clk_calls_disables,
        clk_calls_of_poll p1 hpoll1, clk_calls_of_poll p2 hpoll2, List.append_nil]
      simp [clk_calls, Event.is_clk, power_on_request, power_on_release]
    · rw [htr']
      simp only [writels_append, writels_enables, writels_disables,
        writels_of_poll p1 hpoll1, writels_of_poll p2 hpoll2, List.nil_append,
        List.append_nil]
      simp [writels, power_on_request, power_on_release, PWR_ON_BIT, PWR_ON_2ND_BIT,
        PWR_CLK_DIS_BIT, PWR_ISO_BIT, PWR_RST_B_BIT]
  · rw [htr, htl] at hmem
    by_cases hcb : scpd.power_state_cb = true
    · simp [State.init, power_on_request, power_on_release, not_mem_of_poll hpoll1 hnp,
        not_mem_of_poll hpoll2 hnp, hm, hcb, he] at hmem
    · simp [State.init, power_on_request, power_on_release, not_mem_of_poll hpoll1 hnp,
        not_mem_of_poll hpoll2 hnp, hm, hcb, he] at hmem

/-! ## Power-on followed by power-off, and the domain "vdec" -/

theorem count_enable_map (c : clk_id) (cs : List clk_id) :
    (cs.map (fun c => Event.clk_prepare_enable c 0)).count (Event.clk_prepare_enable c 0) =
      cs.count c ∧
    (cs.map Event.clk_disable_unprepare).count (Event.clk_prepare_enable c 0) = 0 ∧
    (cs.map Event.clk_disable_unprepare).count (Event.clk_disable_unprepare c) = cs.count c ∧
    (cs.map (fun c => Event.clk_prepare_enable c 0)).count (Event.clk_disable_unprepare c) =
      0 := by
  induction cs with
  | nil => simp
  | cons d cs ih =>
    obtain ⟨h1, h2, h3, h4⟩ := ih
    simp only [List.map_cons, List.count_cons, h1, h2, h3, h4]
    refine ⟨?_, ?_, ?_, ?_⟩
    · by_cases hdc : d = c <;> simp [hdc]
    · simp
    · by_cases hdc : d = c <;> simp [hdc]
    · simp

/-- The trace of a successful `scpsys_power_on`. -/
theorem power_on_success (env : Env) (scpd : scp_domain) (fuel : Nat) (s s' : State)
    (h : scpsys_power_on env scpd fuel s = some (0, s')) :
    ∃ p1 r r2 p2 tl, status_poll_ending p1 r r2 ∧
      (r &&& scpd.sta_mask ≠ 0 ∧ r2 &&& scpd.sta_mask ≠ 0) ∧
      ((scpd.sram_pdn_ack_bits = 0 ∧ ∃ j, p2 = [Event.jiffies j]) ∨
        (scpd.sram_pdn_ack_bits ≠ 0 ∧ ∃ a, sram_poll_ending scpd p2 a ∧
          a &&& scpd.sram_pdn_ack_bits = 0)) ∧
      tl = (if scpd.bus_prot_mask ≠ 0
          then [Event.clear_bus_protection scpd.bus_prot_mask 0] else []) ++
        (if scpd.power_state_cb then [Event.power_state_cb 1] else []) ∧
      s'.trace = s.trace ++ (domain_clks scpd).map (fun c => Event.clk_prepare_enable c 0) ++
        power_on_request scpd (env.readl_ctl s.n_ctl % 2 ^ 32) ++ p1 ++
        power_on_release scpd (env.readl_ctl s.n_ctl % 2 ^ 32) ++ p2 ++ tl := by
  have hT : (-ETIMEDOUT : Int) ≠ 0 := by decide
  rcases power_on_clk_cases env scpd fuel _ _ _ h with ⟨_, _, _, _, hne, _⟩ | hen
  · exact absurd rfl hne
  obtain ⟨p1, r, r2, hp1, hcase⟩ := power_on_after_clks env scpd fuel _ _ _ hen h
  rcases hcase with ⟨hret, _⟩ | ⟨hon, p2, hp2, tl, htr, htl⟩
  · exact absurd hret.symm hT
  rcases htl with ⟨hret, _⟩ | ⟨hne, _⟩ | ⟨_, _, htl⟩
  · exact absurd hret.symm hT
  · exact absurd rfl hne
  refine ⟨p1, r, r2, p2, tl, hp1, hon, ?_, htl, htr⟩
  rcases hp2 with h0 | ⟨hack, a, ha, hz⟩
  · exact Or.inl h0
  · rcases hz with hz | hz
    · exact Or.inr ⟨hack, a, ha, hz⟩
    · exact absurd hz.symm hT

theorem power_on_tail_no_calls (scpd : scp_domain) :
    writels ((if scpd.bus_prot_mask ≠ 0
        then [Event.clear_bus_protection scpd.bus_prot_mask 0] else []) ++
      (if scpd.power_state_cb then [Event.power_state_cb 1] else [])) = [] ∧
    clk_calls ((if scpd.bus_prot_mask ≠ 0
        then [Event.clear_bus_protection scpd.bus_prot_mask 0] else []) ++
      (if scpd.power_state_cb then [Event.power_state_cb 1] else [])) = [] := by
  by_cases hm : scpd.bus_prot_mask = 0 <;> by_cases hcb : scpd.power_state_cb = true <;>
    simp [hm, hcb, writels, clk_calls, Event.is_clk]

/-- C8.  A domain holds the clocks `cs`.  A successful `scpsys_power_on`
from the initial state, with `v0` the value found by its read of the control
register, is followed at once by a successful `scpsys_power_off`.  Then the
clock calls of the two operations together are the enables of `cs` followed by
the disables of `cs`, so every clock is enabled and disabled as often as it
occurs in `cs`: once.  If moreover `v0` has the powered-off pattern and the
read of the control register in `scpsys_power_off` finds the value that
`scpsys_power_on` wrote last, then the last value written is `v0` again, and
every value written by either operation agrees with `v0` outside bits 0 to 4
and the SRAM power-down bits. -/
theorem power_on_off_round_trip (env : Env) (scpd : scp_domain) (cs : List clk_id)
    (fuel1 fuel2 : Nat) (s1 s2 : State) (v0 : Nat)
    (hclk : has_clks scpd cs) (hv0 : env.readl_ctl 0 % 2 ^ 32 = v0)
    (hon : scpsys_power_on env scpd fuel1 State.init = some (0, s1))
    (hoff : scpsys_power_off env scpd fuel2 s1 = some (0, s2)) :
    clk_calls s2.trace = cs.map (fun c => Event.clk_prepare_enable c 0) ++
      cs.map Event.clk_disable_unprepare ∧
    (∀ c, s2.trace.count (Event.clk_prepare_enable c 0) = cs.count c ∧
      s2.trace.count (Event.clk_disable_unprepare c) = cs.count c) ∧
    (powered_off_pattern scpd v0 →
      (∀ last, (writels s1.trace).getLast? = some last →
        env.readl_ctl s1.n_ctl % 2 ^ 32 = last.1) →
      (writels s2.trace).getLast? = some (v0, scpd.ctl_addr) ∧
      (writels s2.trace).length = 12 ∧
      ∀ w ∈ writels s2.trace, w.2 = scpd.ctl_addr ∧
        unchanged_outside scpd.sram_pdn_bits v0 w.1) := by
  subst hv0
  have hd := has_clks_domain_clks hclk
  obtain ⟨p1, r, r2, p2, tl, hp1, _, hp2, htl, htr1⟩ := power_on_success env scpd fuel1 _ _ hon
  obtain ⟨q1, q2, r', r2', hq1, hq2, _, htr2⟩ := power_off_success env scpd fuel2 _ _ hoff
  have hpoll1 := status_poll_ending_poll hp1
  have hpoll2 : ∀ e ∈ p2, e.is_poll = true := by
    rcases hp2 with ⟨_, j, rfl⟩ | ⟨_, a, ha, _⟩
    · intro e he; simp at he; subst he; rfl
    · exact sram_poll_ending_poll ha
  have hqoll2 := status_poll_ending_poll hq2
  rw [hd] at htr1 htr2
  simp only [State.init, List.nil_append] at htr1
  -- the clock calls
  have hclk1 : clk_calls s1.trace = cs.map (fun c => Event.clk_prepare_enable c 0) := by
    rw [htr1, htl]
    simp only [clk_calls_append, clk_calls_enables, clk_calls_of_poll p1 hpoll1,
      clk_calls_of_poll p2 hpoll2, (power_on_tail_no_calls scpd).2, List.append_nil]
    simp [clk_calls, Event.is_clk, power_on_request, power_on_release]
  have hclk2 : clk_calls s2.trace = cs.map (fun c => Event.clk_prepare_enable c 0) ++
      cs.map Event.clk_disable_unprepare := by
    rw [htr2]
    simp only [clk_calls_append, hclk1, clk_calls_disables, clk_calls_of_poll q1 hq1,
      clk_calls_of_poll q2 hqoll2, (power_off_prologue_no_writes scpd).2, List.append_nil]
    simp [clk_calls, Event.is_clk, power_off_request, power_off_isolate]
  -- the register writes
  have hw1 : writels s1.trace =
      [(env.readl_ctl 0 % 2 ^ 32 ||| BIT 2, scpd.ctl_addr),
       (env.readl_ctl 0 % 2 ^ 32 ||| BIT 2 ||| BIT 3, scpd.ctl_addr),
       ((env.readl_ctl 0 % 2 ^ 32 ||| BIT 2 ||| BIT 3) &&& not32 (BIT 4), scpd.ctl_addr),
       ((env.readl_ctl 0 % 2 ^ 32 ||| BIT 2 ||| BIT 3) &&& not32 (BIT 4) &&& not32 (BIT 1),
         scpd.ctl_addr),
       ((env.readl_ctl 0 % 2 ^ 32 ||| BIT 2 ||| BIT 3) &&& not32 (BIT 4) &&& not32 (BIT 1)
         ||| BIT 0, scpd.ctl_addr),
       (((env.readl_ctl 0 % 2 ^ 32 ||| BIT 2 ||| BIT 3) &&& not32 (BIT 4) &&& not32 (BIT 1)
         ||| BIT 0) &&& not32 scpd.sram_pdn_bits, scpd.ctl_addr)] := by
    rw [htr1, htl]
    simp only [writels_append, writels_enables, writels_of_poll p1 hpoll1,
      writels_of_poll p2 hpoll2, (power_on_tail_no_calls scpd).1, List.nil_append,
      List.append_nil]
    rfl
  refine ⟨hclk2, ?_, ?_⟩
  · intro c
    have e1 : s2.trace.count (Event.clk_prepare_enable c 0) =
        (clk_calls s2.trace).count (Event.clk_prepare_enable c 0) :=
      (List.count_filter (by rfl)).symm
    have e2 : s2.trace.count (Event.clk_disable_unprepare c) =
        (clk_calls s2.trace).count (Event.clk_disable_unprepare c) :=
      (List.count_filter (by rfl)).symm
    obtain ⟨c1, c2, c3, c4⟩ := count_enable_map c cs
    rw [e1, e2, hclk2, List.count_append, List.count_append, c1, c2, c3, c4]
    simp
  · intro hpat hback
    obtain ⟨b2, b3, b0, b1, b4, bS⟩ := hpat
    have hv : env.readl_ctl 0 % 2 ^ 32 < 2 ^ 32 := Nat.mod_lt _ (by decide)
    have hv1 := hback _ (by rw [hw1]; rfl)
    simp only at hv1
    have hw2 : writels s2.trace = writels s1.trace ++
        [(env.readl_ctl s1.n_ctl % 2 ^ 32 ||| scpd.sram_pdn_bits, scpd.ctl_addr),
         (env.readl_ctl s1.n_ctl % 2 ^ 32 ||| scpd.sram_pdn_bits ||| BIT 1, scpd.ctl_addr),
         ((env.readl_ctl s1.n_ctl % 2 ^ 32 ||| scpd.sram_pdn_bits ||| BIT 1)
           &&& not32 (BIT 0), scpd.ctl_addr),
         ((env.readl_ctl s1.n_ctl % 2 ^ 32 ||| scpd.sram_pdn_bits ||| BIT 1)
           &&& not32 (BIT 0) ||| BIT 4, scpd.ctl_addr),
         (((env.readl_ctl s1.n_ctl % 2 ^ 32 ||| scpd.sram_pdn_bits ||| BIT 1)
           &&& not32 (BIT 0) ||| BIT 4) &&& not32 (BIT 2), scpd.ctl_addr),
         (((env.readl_ctl s1.n_ctl % 2 ^ 32 ||| scpd.sram_pdn_bits ||| BIT 1)
           &&& not32 (BIT 0) ||| BIT 4) &&& not32 (BIT 2) &&& not32 (BIT 3),
           scpd.ctl_addr)] := by
      rw [htr2]
      simp only [writels_append, writels_disables, writels_of_poll q1 hq1,
        writels_of_poll q2 hqoll2, (power_off_prologue_no_writes scpd).1, List.nil_append,
        List.append_nil, List.append_assoc]
      rfl
    rw [hv1] at hw2
    have u1 := unchanged_outside_or_bit 2 (by decide)
      (unchanged_outside_refl scpd.sram_pdn_bits (env.readl_ctl 0 % 2 ^ 32))
    have u2 := unchanged_outside_or_bit 3 (by decide) u1
    have u3 := unchanged_outside_clear_bit 4 (by decide) hv u2
    have u4 := unchanged_outside_clear_bit 1 (by decide) hv u3
    have u5 := unchanged_outside_or_bit 0 (by decide) u4
    have u6 := unchanged_outside_clear_sram hv u5
    have o1 := unchanged_outside_or_sram u6
    have o2 := unchanged_outside_or_bit 1 (by decide) o1
    have o3 := unchanged_outside_clear_bit 0 (by decide) hv o2
    have o4 := unchanged_outside_or_bit 4 (by decide) o3
    have o5 := unchanged_outside_clear_bit 2 (by decide) hv o4
    have o6 := unchanged_outside_clear_bit 3 (by decide) hv o5
    refine ⟨?_, ?_, ?_⟩
    · rw [hw2, hw1]
      simp only [List.cons_append, List.nil_append, List.getLast?_cons_cons,
        List.getLast?_singleton, Option.some.injEq, Prod.mk.injEq, and_true]
      exact power_on_off_value _ _ hv b0 b1 b2 b3 b4 bS
    · rw [hw2, hw1]; rfl
    · intro w hw
      rw [hw2, hw1] at hw
      simp only [List.cons_append, List.nil_append, List.mem_cons, List.not_mem_nil,
        or_false] at hw
      rcases hw with rfl | rfl | rfl | rfl | rfl | rfl | rfl | rfl | rfl | rfl | rfl | rfl
      · exact ⟨rfl, u1⟩
      · exact ⟨rfl, u2⟩
      · exact ⟨rfl, u3⟩
      · exact ⟨rfl, u4⟩
      · exact ⟨rfl, u5⟩
      · exact ⟨rfl, u6⟩
      · exact ⟨rfl, o1⟩
      · exact ⟨rfl, o2⟩
      · exact ⟨rfl, o3⟩
      · exact ⟨rfl, o4⟩
      · exact ⟨rfl, o5⟩
      · exact ⟨rfl, o6⟩

/-! ## The table entry "vdec" and the domain graph -/

/-- C7, as the code has it.  The table entry named "vdec" has status mask
bit 7, control offset `0x0210`, SRAM power-down bits 8 to 11, SRAM
acknowledge bit 12, the one clock "mm" and no bus-protection mask.  A
successful `scpsys_power_on` of the domain set up from it enables clock "mm",
reads the control register, sets bit 2 and then bit 3, polls until a status
check finds bit 7 set in both status registers, clears bit 4, clears bit 1,
sets bit 0, clears bits 8 to 11, then reads the control register until a read
finds bit 12 clear (at least one read), and returns without a bus-protection
call and without a callback. -/
theorem vdec_power_on (ic : infracfg_masks) :
    (scp_domain_data_table ic power_domain.MT8163_POWER_DOMAIN_VDEC).name = "vdec" ∧
    (scp_domain_data_table ic power_domain.MT8163_POWER_DOMAIN_VDEC).sta_mask = BIT 7 ∧
    (scp_domain_data_table ic power_domain.MT8163_POWER_DOMAIN_VDEC).ctl_offs = 0x0210 ∧
    (scp_domain_data_table ic power_domain.MT8163_POWER_DOMAIN_VDEC).sram_pdn_bits =
      BIT 8 ||| BIT 9 ||| BIT 10 ||| BIT 11 ∧
    (scp_domain_data_table ic power_domain.MT8163_POWER_DOMAIN_VDEC).sram_pdn_ack_bits =
      BIT 12 ∧
    List.ofFn (scp_domain_data_table ic power_domain.MT8163_POWER_DOMAIN_VDEC).clk_id =
      [clk_id.MT8163_CLK_MM, clk_id.MT8163_CLK_NONE] ∧
    (scp_domain_data_table ic power_domain.MT8163_POWER_DOMAIN_VDEC).bus_prot_mask = 0 ∧
    has_clks (vdec ic) [clk_id.MT8163_CLK_MM] ∧
    ∀ (env : Env) (fuel : Nat) (s' : State) (v0 : Nat), env.readl_ctl 0 % 2 ^ 32 = v0 →
      scpsys_power_on env (vdec ic) fuel State.init = some (0, s') →
      ∃ p1 r r2 p2 a, status_poll_ending p1 r r2 ∧
        r.testBit 7 = true ∧ r2.testBit 7 = true ∧
        sram_poll_ending (vdec ic) p2 a ∧ a.testBit 12 = false ∧
        s'.trace =
          [Event.clk_prepare_enable clk_id.MT8163_CLK_MM 0,
           Event.readl 0x0210 v0,
           Event.writel (v0 ||| BIT 2) 0x0210,
           Event.writel (v0 ||| BIT 2 ||| BIT 3) 0x0210] ++ p1 ++
          [Event.writel ((v0 ||| BIT 2 ||| BIT 3) &&& not32 (BIT 4)) 0x0210,
           Event.writel ((v0 ||| BIT 2 ||| BIT 3) &&& not32 (BIT 4) &&& not32 (BIT 1)) 0x0210,
           Event.writel ((v0 ||| BIT 2 ||| BIT 3) &&& not32 (BIT 4) &&& not32 (BIT 1)
             ||| BIT 0) 0x0210,
           Event.writel (((v0 ||| BIT 2 ||| BIT 3) &&& not32 (BIT 4) &&& not32 (BIT 1)
             ||| BIT 0) &&& not32 (BIT 8 ||| BIT 9 ||| BIT 10 ||| BIT 11)) 0x0210] ++ p2 := by
  refine ⟨rfl, rfl, rfl, rfl, rfl, rfl, rfl, rfl, ?_⟩
  intro env fuel s' v0 hv0 h
  subst hv0
  obtain ⟨p1, r, r2, p2, tl, hp1, hon, hp2, htl, htr⟩ := power_on_success env (vdec ic) fuel _ _ h
  have hsta : (vdec ic).sta_mask = BIT 7 := rfl
  have hack : (vdec ic).sram_pdn_ack_bits = BIT 12 := rfl
  have hbus : (vdec ic).bus_prot_mask = 0 := rfl
  have hcb : (vdec ic).power_state_cb = false := rfl
  have hclks : domain_clks (vdec ic) = [clk_id.MT8163_CLK_MM] := rfl
  rw [hsta] at hon
  rw [hack] at hp2
  rcases hp2 with ⟨hz, _⟩ | ⟨_, a, ha, hz⟩
  · exact absurd hz (by decide)
  refine ⟨p1, r, r2, p2, a, hp1, (and_BIT_ne_zero_iff r 7).1 hon.1,
    (and_BIT_ne_zero_iff r2 7).1 hon.2, ha, (and_BIT_eq_zero_iff a 12).1 hz, ?_⟩
  have htl' : tl = [] := by rw [htl, hbus, hcb]; rfl
  rw [htr, htl', hclks]
  have hs : (vdec ic).sram_pdn_bits = BIT 8 ||| BIT 9 ||| BIT 10 ||| BIT 11 := rfl
  have ha : (vdec ic).ctl_addr = 0x0210 := rfl
  simp only [State.init, power_on_request, power_on_release, hs, ha, List.nil_append,
    List.map_cons, List.map_nil, List.append_nil, List.cons_append, List.append_assoc]
  rfl

/-- The driver function itself has no dependency check: whenever
`scpsys_power_on` of "mfg" returns, its first call was the enable of the clock
"mfg", whatever the state of "mfg_async". -/
theorem power_on_mfg_starts_with_clk (env : Env) (ic : infracfg_masks) (fuel : Nat)
    (s : State) (ret : Int) (s' : State)
    (h : scpsys_power_on env (scpsys_probe_domain
      (scp_domain_data_table ic power_domain.MT8163_POWER_DOMAIN_MFG)) fuel s =
        some (ret, s')) :
    ∃ r rest, s'.trace = s.trace ++ Event.clk_prepare_enable clk_id.MT8163_CLK_MFG r :: rest := by
  have hclks : domain_clks (scpsys_probe_domain
      (scp_domain_data_table ic power_domain.MT8163_POWER_DOMAIN_MFG)) =
        [clk_id.MT8163_CLK_MFG] := rfl
  rcases power_on_clk_cases env _ fuel _ _ _ h with ⟨pre, c, post, hd, _, _, htr⟩ | hen
  · rw [hclks] at hd
    cases pre with
    | nil =>
      simp only [List.nil_append, List.cons.injEq] at hd
      obtain ⟨rfl, _⟩ := hd
      simp only [List.map_nil, List.append_nil, List.reverse_nil, List.append_assoc,
        List.cons_append, List.nil_append] at htr
      exact ⟨_, _, htr⟩
    | cons p pre =>
      simp only [List.cons_append, List.cons.injEq] at hd
      obtain ⟨rfl, hd⟩ := hd
      simp only [List.map_cons, List.append_assoc, List.cons_append] at htr
      exact ⟨_, _, htr⟩
  · obtain ⟨p1, r, r2, _, hcase⟩ := power_on_after_clks env _ fuel _ _ _ hen h
    rw [hclks] at hcase
    rcases hcase with ⟨_, _, htr⟩ | ⟨_, p2, _, tl, htr, _⟩
    · simp only [List.map_cons, List.map_nil, List.append_assoc, List.cons_append,
        List.nil_append] at htr
      exact ⟨_, _, htr⟩
    · simp only [List.map_cons, List.map_nil, List.append_assoc, List.cons_append,
        List.nil_append] at htr
      exact ⟨_, _, htr⟩

/-! ## The operations on sample inputs -/

/-- C1 on a sample: "vdec" comes up in the surroundings `env_up_down`, where
the control register reads `0xf12`; the six values written are `0xf16`,
`0xf1e`, `0xf0e`, `0xf0c`, `0xf0d` and `0x00d`. -/
theorem power_on_write_sequence_witness :
    env_up_down.readl_ctl 0 % 2 ^ 32 = 0xf12 ∧
    scpsys_power_on env_up_down (vdec sample_masks) 8 State.init = some (0, up_state) ∧
    writels up_state.trace =
      [(0xf16, 0x0210), (0xf1e, 0x0210), (0xf0e, 0x0210), (0xf0c, 0x0210), (0xf0d, 0x0210),
       (0x00d, 0x0210)] :=
  ⟨rfl, rfl, by
    obtain ⟨_, _, _, _, _, _, _, hw⟩ :=
      power_on_write_sequence env_up_down (vdec sample_masks) 8 up_state 0xf12 rfl rfl
    exact hw⟩

/-- C2 fails on a sample: "vdec" goes down in the surroundings `env_down`,
where the control register reads `0x00d`.  After the write of `0xf0d` and the
acknowledge wait there are five more writes, not four, and the fourth of them,
`0xf1a`, clears bit 2 only: bit 3 is still set in it and is cleared by the
fifth. -/
theorem power_off_four_writes_counterexample :
    scpsys_power_off env_down (vdec sample_masks) 8 State.init = some (0, vdec_off_state) ∧
    (writels vdec_off_state.trace).drop 1 =
      [(0xf0f, 0x0210), (0xf0e, 0x0210), (0xf1e, 0x0210), (0xf1a, 0x0210), (0xf12, 0x0210)] ∧
    ((writels vdec_off_state.trace).drop 1).length ≠ 4 ∧
    (0xf1a : Nat).testBit 2 = false ∧ (0xf1a : Nat).testBit 3 = true :=
  ⟨rfl, rfl, by decide, rfl, rfl⟩

/-- C2 as the code has it, on the same sample. -/
theorem power_off_write_sequence_witness :
    env_down.readl_ctl 0 % 2 ^ 32 = 0x00d ∧
    scpsys_power_off env_down (vdec sample_masks) 8 State.init = some (0, vdec_off_state) ∧
    writels vdec_off_state.trace =
      [(0xf0d, 0x0210), (0xf0f, 0x0210), (0xf0e, 0x0210), (0xf1e, 0x0210), (0xf1a, 0x0210),
       (0xf12, 0x0210)] :=
  ⟨rfl, rfl, by
    obtain ⟨_, _, _, _, _, hw⟩ :=
      power_off_write_sequence env_down (vdec sample_masks) 8 vdec_off_state 0x00d rfl rfl
    exact hw⟩

/-- C3 on a sample: the two-clock domain in surroundings where the second
enable returns `-EIO`. -/
theorem power_on_clk_enable_failure_witness :
    has_clks two_clk_domain ([clk_id.MT8163_CLK_MM] ++ clk_id.MT8163_CLK_MFG :: []) ∧
    env_clk_fails.clk_prepare_enable 0 = 0 ∧ env_clk_fails.clk_prepare_enable 1 = -5 ∧
    ∃ s', scpsys_power_on env_clk_fails two_clk_domain 8 State.init = some (-5, s') ∧
      s'.trace =
        [Event.clk_prepare_enable clk_id.MT8163_CLK_MM 0,
         Event.clk_prepare_enable clk_id.MT8163_CLK_MFG (-5),
         Event.clk_disable_unprepare clk_id.MT8163_CLK_MM,
         Event.dev_err] ∧
      s'.n_ctl = 0 ∧ s'.n_sta = 0 ∧ s'.n_bus = 0 :=
  ⟨rfl, rfl, rfl,
    power_on_clk_enable_failure env_clk_fails two_clk_domain [clk_id.MT8163_CLK_MM]
      clk_id.MT8163_CLK_MFG [] (-5) 8 rfl
      (by intro i hi; simp only [List.length_singleton, Nat.lt_one_iff] at hi; subst hi; rfl)
      rfl (by decide)⟩

/-- C5 on a sample: the second status check of "vdec" in the surroundings
`env_up_down` finds bit 7 set in the first status register only and returns
`-EINVAL`; the poll goes on, and `scpsys_power_on` returns 0. -/
theorem status_disagreement_only_continues_witness :
    (scpsys_domain_is_on env_up_down (vdec sample_masks) { State.init with n_sta := 1 }).1 =
      -EINVAL ∧
    scpsys_power_on env_up_down (vdec sample_masks) 8 State.init = some (0, up_state) :=
  ⟨((status_disagreement_only_continues env_up_down (vdec sample_masks)).1
      { State.init with n_sta := 1 }).2.2.2 (Or.inl ⟨by decide, by decide⟩), rfl⟩

/-- C6 fails on a sample: "mm", whose bus-protection mask is not zero, in the
surroundings `env_bus_fails`, where the control register reads `0xf12` at the
start and the bus-protection call returns `-EIO`.  `scpsys_power_on` returns
`-EIO`, but the value it wrote last is `0x00d`, not `0xf12`. -/
theorem bus_protection_unchanged_counterexample :
    (disp sample_masks).bus_prot_mask ≠ 0 ∧
    env_bus_fails.readl_ctl 0 % 2 ^ 32 = 0xf12 ∧
    scpsys_power_on env_bus_fails (disp sample_masks) 8 State.init =
      some (-5, bus_failed_state) ∧
    Event.clear_bus_protection (disp sample_masks).bus_prot_mask (-5) ∈
      bus_failed_state.trace ∧
    (writels bus_failed_state.trace).getLast? = some (0x00d, 0x023c) ∧
    (0x00d : Nat) ≠ 0xf12 :=
  ⟨by decide, rfl, rfl, by decide, rfl, by decide⟩

/-- C6 as the code has it, on the same sample. -/
theorem bus_protection_failure_witness :
    has_clks (disp sample_masks) [clk_id.MT8163_CLK_MM] ∧
    (disp sample_masks).bus_prot_mask ≠ 0 ∧ (-5 : Int) ≠ 0 ∧
    env_bus_fails.bus_protection 0 = -5 ∧
    (∃ s', scpsys_power_off env_bus_fails (disp sample_masks) 8 State.init = some (-5, s') ∧
      s'.trace = [Event.set_bus_protection 2 (-5), Event.dev_err]) ∧
    clk_calls bus_failed_state.trace =
      [Event.clk_prepare_enable clk_id.MT8163_CLK_MM 0,
       Event.clk_disable_unprepare clk_id.MT8163_CLK_MM] ∧
    (writels bus_failed_state.trace).getLast? = some (0x00d, 0x023c) :=
  ⟨rfl, by decide, by decide, rfl,
    (bus_protection_failure env_bus_fails (disp sample_masks) [clk_id.MT8163_CLK_MM] 8 (-5)
      rfl (by decide) (by decide)).1 rfl,
    by
      obtain ⟨_, _, _, _, _, _, hc, _⟩ :=
        (bus_protection_failure env_bus_fails (disp sample_masks) [clk_id.MT8163_CLK_MM] 8
          (-5) rfl (by decide) (by decide)).2 (-5) bus_failed_state 0xf12 rfl rfl
          (by decide)
      exact hc,
    by
      obtain ⟨_, _, _, _, _, _, _, hw⟩ :=
        (bus_protection_failure env_bus_fails (disp sample_masks) [clk_id.MT8163_CLK_MM] 8
          (-5) rfl (by decide) (by decide)).2 (-5) bus_failed_state 0xf12 rfl rfl
          (by decide)
      exact hw⟩

/-- C7 fails on the table: the entry "vdec" has the SRAM acknowledge bit 12,
and the successful `scpsys_power_on` of "vdec" in the surroundings
`env_up_down` ends with two reads of the control register for the acknowledge
wait, which come after the last write. -/
theorem vdec_no_ack_counterexample :
    (scp_domain_data_table sample_masks power_domain.MT8163_POWER_DOMAIN_VDEC).sram_pdn_ack_bits
      = 0x1000 ∧
    (scp_domain_data_table sample_masks power_domain.MT8163_POWER_DOMAIN_VDEC).sram_pdn_ack_bits
      ≠ 0 ∧
    scpsys_power_on env_up_down (vdec sample_masks) 8 State.init = some (0, up_state) ∧
    up_state.trace.drop 18 =
      [Event.writel 0x00d 0x0210, Event.jiffies 1003, Event.readl 0x0210 0x100d,
       Event.cpu_relax, Event.jiffies 1004, Event.readl 0x0210 0x00d] :=
  ⟨rfl, by decide, rfl, rfl⟩

/-- C7 as the code has it, on the same sample. -/
theorem vdec_power_on_witness :
    env_up_down.readl_ctl 0 % 2 ^ 32 = 0xf12 ∧
    scpsys_power_on env_up_down (vdec sample_masks) 8 State.init = some (0, up_state) ∧
    ∃ p1 r r2 p2 a, status_poll_ending p1 r r2 ∧
      r.testBit 7 = true ∧ r2.testBit 7 = true ∧
      sram_poll_ending (vdec sample_masks) p2 a ∧ a.testBit 12 = false :=
  ⟨rfl, rfl, by
    obtain ⟨p1, r, r2, p2, a, h1, h2, h3, h4, h5, _⟩ :=
      (vdec_power_on sample_masks).2.2.2.2.2.2.2.2 env_up_down 8 up_state 0xf12 rfl rfl
    exact ⟨p1, r, r2, p2, a, h1, h2, h3, h4, h5⟩⟩

/-- C8 on a sample: "vdec" comes up and goes down again in the surroundings
`env_up_down`; the control register held `0xf12`, which has the powered-off
pattern, and `0xf12` is the value written last. -/
theorem power_on_off_round_trip_witness :
    has_clks (vdec sample_masks) [clk_id.MT8163_CLK_MM] ∧
    env_up_down.readl_ctl 0 % 2 ^ 32 = 0xf12 ∧
    scpsys_power_on env_up_down (vdec sample_masks) 8 State.init = some (0, up_state) ∧
    scpsys_power_off env_up_down (vdec sample_masks) 8 up_state = some (0, down_state) ∧
    powered_off_pattern (vdec sample_masks) 0xf12 ∧
    clk_calls down_state.trace =
      [Event.clk_prepare_enable clk_id.MT8163_CLK_MM 0,
       Event.clk_disable_unprepare clk_id.MT8163_CLK_MM] ∧
    (writels down_state.trace).getLast? = some (0xf12, 0x0210) :=
  ⟨rfl, rfl, rfl, rfl, ⟨rfl, rfl, rfl, rfl, rfl, rfl⟩,
    (power_on_off_round_trip env_up_down (vdec sample_masks) [clk_id.MT8163_CLK_MM] 8 8
      up_state down_state 0xf12 rfl rfl rfl rfl).1,
    ((power_on_off_round_trip env_up_down (vdec sample_masks) [clk_id.MT8163_CLK_MM] 8 8
      up_state down_state 0xf12 rfl rfl rfl rfl).2.2 ⟨rfl, rfl, rfl, rfl, rfl, rfl⟩
      (by
        intro last h
        have e : (writels up_state.trace).getLast? = some (0x00d, 0x0210) := rfl
        rw [e] at h
        cases h
        rfl)).1⟩

/-- C10 fails on a sample: the domain with the clocks "mm" and "mfg", in this
order, goes down in the surroundings `env_down`; "mm", the first clock, is
disabled first and "mfg" last. -/
theorem power_off_reverse_order_counterexample :
    has_clks two_clk_domain [clk_id.MT8163_CLK_MM, clk_id.MT8163_CLK_MFG] ∧
    scpsys_power_off env_down two_clk_domain 8 State.init = some (0, two_clk_off_state) ∧
    clk_calls two_clk_off_state.trace =
      [Event.clk_disable_unprepare clk_id.MT8163_CLK_MM,
       Event.clk_disable_unprepare clk_id.MT8163_CLK_MFG] ∧
    clk_calls two_clk_off_state.trace ≠
      [clk_id.MT8163_CLK_MM, clk_id.MT8163_CLK_MFG].reverse.map
        Event.clk_disable_unprepare :=
  ⟨rfl, rfl, rfl, by decide⟩

/-- C10 as the code has it, on the same sample. -/
theorem power_off_disables_clks_witness :
    has_clks two_clk_domain [clk_id.MT8163_CLK_MM, clk_id.MT8163_CLK_MFG] ∧
    scpsys_power_off env_down two_clk_domain 8 State.init = some (0, two_clk_off_state) ∧
    ∃ before r r2,
      two_clk_off_state.trace = before ++
        [Event.readl SPM_PWR_STATUS r, Event.readl SPM_PWR_STATUS_2ND r2] ++
        [clk_id.MT8163_CLK_MM, clk_id.MT8163_CLK_MFG].map Event.clk_disable_unprepare ∧
      r &&& two_clk_domain.sta_mask = 0 ∧ r2 &&& two_clk_domain.sta_mask = 0 ∧
      clk_calls before = [] ∧
      clk_calls two_clk_off_state.trace =
        [clk_id.MT8163_CLK_MM, clk_id.MT8163_CLK_MFG].map Event.clk_disable_unprepare :=
  ⟨rfl, rfl,
    power_off_disables_clks env_down two_clk_domain
      [clk_id.MT8163_CLK_MM, clk_id.MT8163_CLK_MFG] 8 two_clk_off_state rfl rfl⟩

/-- Time goes on in the sample surroundings, whose tick counter advances by
one between two readings. -/
theorem ticks_advance_env_up_down : ticks_advance env_up_down := by
  intro j timeout
  refine ⟨(timeout + 1 + 2 ^ 64 - (1000 + j) % 2 ^ 64) % 2 ^ 64, ?_⟩
  simp only [time_after, env_up_down, sample_env, decide_eq_true_eq]
  norm_num
  omega

end Scpsys
